import Mathlib

/-!
Verification of the `AudioEngineDevice` engine state machine from
`modules/audio_device/audio_engine_device.mm`.

The development shallowly embeds the engine state record (`EngineState`),
the transition diff (`EngineStateUpdate`), the state-transition driver
(`ModifyEngineState`) together with both appliers
(`ApplyDeviceEngineState`, `ApplyManualEngineState`), the start-engine
retry loop, the manual-mode render loop arithmetic, and the
default-device debouncer.  External collaborators (the PCM buffer, the
`AVAudioEngine` node graph and the observer) are modelled as explicit
state fields, an environment record and an observer function, exactly as
they are consumed by the source.
-/

namespace AudioEngine

/-- `AudioEngineDevice::RenderMode` (audio_engine_device.h). -/
inductive RenderMode
  | Device
  | Manual
deriving DecidableEq, Repr

/-- `AudioEngineDevice::MuteMode` (audio_engine_device.h). -/
inductive MuteMode
  | VoiceProcessing
  | RestartEngine
  | InputMixer
deriving DecidableEq, Repr

/-- `AudioEngineDevice::EngineState`: plain-data record of every knob.
Field order and types follow the C++ struct; `uint32_t` counters are
modelled as `Nat` with explicit wrap-around where they are incremented. -/
structure EngineState where
  input_enabled : Bool
  input_running : Bool
  output_enabled : Bool
  output_running : Bool
  input_follow_mode : Bool
  input_enabled_persistent_mode : Bool
  input_muted : Bool
  is_interrupted : Bool
  render_mode : RenderMode
  mute_mode : MuteMode
  voice_processing_enabled : Bool
  voice_processing_bypassed : Bool
  voice_processing_agc_enabled : Bool
  advanced_ducking : Bool
  ducking_level : Int
  output_device_id : Nat
  input_device_id : Nat
  default_output_device_update_count : Nat
  default_input_device_update_count : Nat
deriving DecidableEq, Repr

namespace EngineState

/-- The default-constructed `EngineState{}` (the C++ member initializers). -/
def defaultState : EngineState where
  input_enabled := false
  input_running := false
  output_enabled := false
  output_running := false
  input_follow_mode := true
  input_enabled_persistent_mode := false
  input_muted := true
  is_interrupted := false
  render_mode := RenderMode.Device
  mute_mode := MuteMode.VoiceProcessing
  voice_processing_enabled := true
  voice_processing_bypassed := false
  voice_processing_agc_enabled := true
  advanced_ducking := true
  ducking_level := 0
  output_device_id := 0
  input_device_id := 0
  default_output_device_update_count := 0
  default_input_device_update_count := 0

/-- `EngineState::IsOutputInputLinked`. -/
def IsOutputInputLinked (s : EngineState) : Bool :=
  s.input_follow_mode && s.voice_processing_enabled

/-- `EngineState::IsInputEnabled`. -/
def IsInputEnabled (s : EngineState) : Bool :=
  !(decide (s.mute_mode = MuteMode.RestartEngine) && s.input_muted) &&
    (s.input_enabled || s.input_enabled_persistent_mode)

/-- `EngineState::IsInputRunning`. -/
def IsInputRunning (s : EngineState) : Bool :=
  !(decide (s.mute_mode = MuteMode.RestartEngine) && s.input_muted) && s.input_running

/-- `EngineState::IsOutputEnabled`. -/
def IsOutputEnabled (s : EngineState) : Bool :=
  if s.IsOutputInputLinked then s.IsInputEnabled || s.output_enabled else s.output_enabled

/-- `EngineState::IsOutputRunning`. -/
def IsOutputRunning (s : EngineState) : Bool :=
  if s.IsOutputInputLinked then s.IsInputRunning || s.output_running else s.output_running

/-- `EngineState::IsAnyEnabled`. -/
def IsAnyEnabled (s : EngineState) : Bool :=
  s.IsInputEnabled || s.IsOutputEnabled

/-- `EngineState::IsAnyRunning`. -/
def IsAnyRunning (s : EngineState) : Bool :=
  s.IsInputRunning || s.IsOutputRunning

/-- `EngineState::IsOutputDefaultDevice` (`kAudioObjectUnknown` is 0). -/
def IsOutputDefaultDevice (s : EngineState) : Bool :=
  decide (s.output_device_id = 0)

/-- `EngineState::IsInputDefaultDevice`. -/
def IsInputDefaultDevice (s : EngineState) : Bool :=
  decide (s.input_device_id = 0)

end EngineState

/-- `AudioEngineDevice::EngineStateUpdate`: the `{prev, next}` diff. -/
structure EngineStateUpdate where
  prev : EngineState
  next : EngineState
deriving DecidableEq, Repr

namespace EngineStateUpdate

/-- `EngineStateUpdate::HasNoChanges`. -/
def HasNoChanges (u : EngineStateUpdate) : Bool :=
  decide (u.prev = u.next)

/-- `EngineStateUpdate::DidEnableOutput`. -/
def DidEnableOutput (u : EngineStateUpdate) : Bool :=
  !u.prev.IsOutputEnabled && u.next.IsOutputEnabled

/-- `EngineStateUpdate::DidEnableInput`. -/
def DidEnableInput (u : EngineStateUpdate) : Bool :=
  !u.prev.IsInputEnabled && u.next.IsInputEnabled

/-- `EngineStateUpdate::DidDisableOutput`. -/
def DidDisableOutput (u : EngineStateUpdate) : Bool :=
  u.prev.IsOutputEnabled && !u.next.IsOutputEnabled

/-- `EngineStateUpdate::DidDisableInput`. -/
def DidDisableInput (u : EngineStateUpdate) : Bool :=
  u.prev.IsInputEnabled && !u.next.IsInputEnabled

/-- `EngineStateUpdate::DidAnyEnable`. -/
def DidAnyEnable (u : EngineStateUpdate) : Bool :=
  u.DidEnableOutput || u.DidEnableInput

/-- `EngineStateUpdate::DidAnyDisable`. -/
def DidAnyDisable (u : EngineStateUpdate) : Bool :=
  u.DidDisableOutput || u.DidDisableInput

/-- `EngineStateUpdate::DidBeginInterruption`. -/
def DidBeginInterruption (u : EngineStateUpdate) : Bool :=
  !u.prev.is_interrupted && u.next.is_interrupted

/-- `EngineStateUpdate::DidEndInterruption`. -/
def DidEndInterruption (u : EngineStateUpdate) : Bool :=
  u.prev.is_interrupted && !u.next.is_interrupted

/-- `EngineStateUpdate::DidUpdateAudioGraph`. -/
def DidUpdateAudioGraph (u : EngineStateUpdate) : Bool :=
  decide (u.prev.IsInputEnabled ≠ u.next.IsInputEnabled) ||
    decide (u.prev.IsOutputEnabled ≠ u.next.IsOutputEnabled)

/-- `EngineStateUpdate::DidUpdateVoiceProcessingEnabled`. -/
def DidUpdateVoiceProcessingEnabled (u : EngineStateUpdate) : Bool :=
  decide (u.prev.voice_processing_enabled ≠ u.next.voice_processing_enabled)

/-- `EngineStateUpdate::DidUpdateOutputDevice`. -/
def DidUpdateOutputDevice (u : EngineStateUpdate) : Bool :=
  decide (u.prev.output_device_id ≠ u.next.output_device_id)

/-- `EngineStateUpdate::DidUpdateInputDevice`. -/
def DidUpdateInputDevice (u : EngineStateUpdate) : Bool :=
  decide (u.prev.input_device_id ≠ u.next.input_device_id)

/-- `EngineStateUpdate::DidUpdateDefaultOutputDevice`. -/
def DidUpdateDefaultOutputDevice (u : EngineStateUpdate) : Bool :=
  decide (u.prev.default_output_device_update_count ≠
    u.next.default_output_device_update_count)

/-- `EngineStateUpdate::DidUpdateDefaultInputDevice`. -/
def DidUpdateDefaultInputDevice (u : EngineStateUpdate) : Bool :=
  decide (u.prev.default_input_device_update_count ≠
    u.next.default_input_device_update_count)

/-- `EngineStateUpdate::DidUpdateMuteMode`. -/
def DidUpdateMuteMode (u : EngineStateUpdate) : Bool :=
  decide (u.prev.mute_mode ≠ u.next.mute_mode)

/-- `EngineStateUpdate::IsEngineRestartRequired`. -/
def IsEngineRestartRequired (u : EngineStateUpdate) : Bool :=
  u.DidUpdateAudioGraph || u.DidUpdateVoiceProcessingEnabled

/-- `EngineStateUpdate::IsEngineRecreateRequired`. -/
def IsEngineRecreateRequired (u : EngineStateUpdate) : Bool :=
  let device := u.DidUpdateOutputDevice || u.DidUpdateInputDevice
  let default_device :=
    (u.DidUpdateDefaultOutputDevice && u.next.IsOutputDefaultDevice) ||
      (u.DidUpdateDefaultInputDevice && u.next.IsInputDefaultDevice)
  let special_case :=
    (u.prev.IsOutputEnabled && u.next.IsOutputEnabled) &&
      (u.prev.IsInputEnabled && !u.next.IsInputEnabled)
  device || default_device || special_case

/-- `EngineStateUpdate::DidEnableManualRenderingMode`. -/
def DidEnableManualRenderingMode (u : EngineStateUpdate) : Bool :=
  decide (u.prev.render_mode ≠ RenderMode.Manual) &&
    decide (u.next.render_mode = RenderMode.Manual)

/-- `EngineStateUpdate::DidEnableDeviceRenderingMode`. -/
def DidEnableDeviceRenderingMode (u : EngineStateUpdate) : Bool :=
  decide (u.prev.render_mode ≠ RenderMode.Device) &&
    decide (u.next.render_mode = RenderMode.Device)

end EngineStateUpdate

end AudioEngine

namespace AudioEngine

open EngineState EngineStateUpdate

/-- C3: the three derived predicates are exactly the boolean formulas the
spec states, recomputed from the record fields on every call (in this
embedding each predicate is a pure function of the fields, so there is no
cache): `IsOutputInputLinked ≡ input_follow_mode ∧ voice_processing_enabled`;
`IsInputEnabled ≡ ¬(mute_mode = RestartEngine ∧ input_muted) ∧
(input_enabled ∨ input_enabled_persistent_mode)`; `IsOutputEnabled ≡
IsOutputInputLinked ? (IsInputEnabled ∨ output_enabled) : output_enabled`. -/
theorem c3_derived_predicates (s : EngineState) :
    (s.IsOutputInputLinked = true ↔
      (s.input_follow_mode = true ∧ s.voice_processing_enabled = true)) ∧
    (s.IsInputEnabled = true ↔
      (¬(s.mute_mode = MuteMode.RestartEngine ∧ s.input_muted = true) ∧
        (s.input_enabled = true ∨ s.input_enabled_persistent_mode = true))) ∧
    (s.IsOutputEnabled = true ↔
      (if s.IsOutputInputLinked = true then
        (s.IsInputEnabled = true ∨ s.output_enabled = true)
      else s.output_enabled = true)) := by
  refine ⟨?_, ?_, ?_⟩
  · simp [EngineState.IsOutputInputLinked]
  · cases hm : s.mute_mode <;> cases hmu : s.input_muted <;>
      simp [EngineState.IsInputEnabled, hm, hmu]
  · by_cases h : s.IsOutputInputLinked = true <;>
      simp [EngineState.IsOutputEnabled, h, Bool.not_eq_true]

/-- Observer callbacks (`AudioDeviceObserver`) that can fail a transition.
`didStop`, `willEnable`, `didDisable` and `willStart` carry the
`IsOutputEnabled`/`IsInputEnabled` booleans the source passes. -/
inductive ObsEvent
  | didStop (po ro : Bool)
  | willRelease
  | didCreate
  | willEnable (po ro : Bool)
  | willConnectOutput
  | willConnectInput
  | didDisable (po ro : Bool)
  | willStart (po ro : Bool)
deriving DecidableEq, Repr

/-- The caller-supplied observer: maps each callback to its integer
return code (0 = success). -/
abbrev Observer : Type := ObsEvent → Int

/-- External collaborator state manipulated by the appliers: the PCM
buffer flags, the `AVAudioEngine` objects and their node graph, the
voice-processing knobs on the input node, and the manual-rendering
resources.  `engine_state_` itself is *not* part of this record: the
appliers never write it (only `ModifyEngineState` commits it). -/
structure Sys where
  buffer_playing : Bool
  buffer_recording : Bool
  fine_buffer : Bool
  engine_device : Bool
  engine_device_running : Bool
  config_observer : Bool
  source_node : Bool
  sink_node : Bool
  input_mixer_node : Bool
  input_node_connected : Bool
  mixer_volume_zero : Bool
  converter : Bool
  converter_buffer : Bool
  node_vp_enabled : Bool
  node_vp_muted : Bool
  node_vp_bypassed : Bool
  node_vp_agc : Bool
  speech_listener : Bool
  node_ducking_advanced : Bool
  node_ducking_level : Int
  applied_input_device : Option Nat
  applied_output_device : Option Nat
  engine_manual : Bool
  engine_manual_running : Bool
  manual_main_connected : Bool
  render_thread : Bool
  render_buffer : Bool
  read_buffer : Bool
  render_block : Bool
  debug_dumps : Nat
deriving DecidableEq, Repr

/-- Platform environment: hardware format availability, whether the
observer connected custom taps to the input mixer, and the outcome of
each `startAndReturnError` attempt. -/
structure Env where
  output_format_ok : Bool
  input_format_ok : Bool
  observer_connects_input : Bool
  manual_start_ok : Bool
  start_ok : Nat → Bool

/-- `kAudioEnginePlayoutDeviceNotAvailableError`. -/
def kAudioEnginePlayoutDeviceNotAvailableError : Int := -3010

/-- `kAudioEngineRecordingDeviceNotAvailableError`. -/
def kAudioEngineRecordingDeviceNotAvailableError : Int := -4010

/-- `kStartEngineMaxRetries` (maximum engine start attempts). -/
def kStartEngineMaxRetries : Nat := 10

/-- Result of the start-engine retry loop: whether the engine started,
how many `startAndReturnError` attempts were made, and how many 100 ms
inter-attempt sleeps happened. -/
structure StartLoopResult where
  started : Bool
  attempts : Nat
  sleeps : Nat
deriving DecidableEq, Repr

/-- The body of `while (!start_result && start_retry_count <
kStartEngineMaxRetries)` from `ApplyDeviceEngineState`: `idx` is the
current `start_retry_count`, `remaining` the attempts still allowed
(`kStartEngineMaxRetries - idx`); a 100 ms sleep precedes every attempt
with `idx > 0`. -/
def runStartLoop (start_ok : Nat → Bool) : Nat → Nat → Nat → StartLoopResult
  | idx, sleeps, 0 => ⟨false, idx, sleeps⟩
  | idx, sleeps, remaining + 1 =>
    let sleeps' := if 0 < idx then sleeps + 1 else sleeps
    if start_ok idx then ⟨true, idx + 1, sleeps'⟩
    else runStartLoop start_ok (idx + 1) sleeps' remaining

/-- The start-engine retry loop of `ApplyDeviceEngineState`. -/
def StartEngineWithRetries (start_ok : Nat → Bool) : StartLoopResult :=
  runStartLoop start_ok 0 0 kStartEngineMaxRetries

/-- The single compensating action the device applier ever pushes on its
rollback list (dropping a freshly created engine object). -/
inductive RollbackAction
  | dropEngineDevice
deriving DecidableEq, Repr

/-- Run one rollback action. -/
def runRollbackAction (s : Sys) : RollbackAction → Sys
  | RollbackAction.dropEngineDevice =>
    { s with engine_device := false, engine_device_running := false }

/-- Applier-internal state: collaborator state, fired observer events,
and the rollback list. -/
structure DApp where
  sys : Sys
  events : List ObsEvent
  rollback : List RollbackAction

/-- Outcome of one applier step: continue, or stop with an error code
(the state at the point of failure travels with the error). -/
def StepResult : Type := Except (Int × DApp) DApp

/-- A step that only updates collaborator state. -/
def pureStep (g : Sys → Sys) (a : DApp) : StepResult :=
  Except.ok { a with sys := g a.sys }

/-- Push a compensating action (`rollback_actions.push_back`). -/
def pushRollback (r : RollbackAction) (a : DApp) : StepResult :=
  Except.ok { a with rollback := a.rollback ++ [r] }

/-- Invoke an observer callback: if an observer is registered the event
fires and a non-zero return aborts the applier with that exact code. -/
def fireObs (obs : Option Observer) (e : ObsEvent) (a : DApp) : StepResult :=
  match obs with
  | none => Except.ok a
  | some f =>
    let a' := { a with events := a.events ++ [e] }
    if f e = 0 then Except.ok a' else Except.error (f e, a')

/-- Device applier, step "Stop AVAudioEngine". -/
def stepStopEngine (obs : Option Observer) (u : EngineStateUpdate) (a : DApp) : StepResult :=
  if u.prev.IsAnyRunning &&
      (!u.next.IsAnyRunning || u.IsEngineRestartRequired ||
        u.DidBeginInterruption || u.IsEngineRecreateRequired) then
    fireObs obs (ObsEvent.didStop u.next.IsOutputEnabled u.next.IsInputEnabled)
      { a with sys := { a.sys with config_observer := false, engine_device_running := false } }
  else Except.ok a

/-- Device applier, step "Recreate AVAudioEngine" (release half). -/
def stepRecreateRelease (obs : Option Observer) (u : EngineStateUpdate) (a : DApp) : StepResult :=
  if u.IsEngineRecreateRequired then
    fireObs obs ObsEvent.willRelease a >>=
      pureStep (fun s => { s with engine_device := false, engine_device_running := false })
  else Except.ok a

/-- Device applier, step "Create AVAudioEngine". -/
def stepCreate (obs : Option Observer) (u : EngineStateUpdate) (a : DApp) : StepResult :=
  if u.next.IsAnyEnabled && (!u.prev.IsAnyEnabled || u.IsEngineRecreateRequired) then
    pureStep (fun s => { s with engine_device := true, engine_device_running := false }) a >>=
      pushRollback RollbackAction.dropEngineDevice >>=
      fireObs obs ObsEvent.didCreate
  else Except.ok a

/-- Step "Stop playout buffer" (identical code in both appliers). -/
def stepStopPlayoutBuffer (u : EngineStateUpdate) (a : DApp) : StepResult :=
  if !u.next.IsOutputEnabled && a.sys.buffer_playing then
    pureStep (fun s => { s with buffer_playing := false }) a
  else Except.ok a

/-- Step "Stop recording buffer" (identical code in both appliers). -/
def stepStopRecordBuffer (u : EngineStateUpdate) (a : DApp) : StepResult :=
  if !u.next.IsInputEnabled && a.sys.buffer_recording then
    pureStep (fun s => { s with buffer_recording := false }) a
  else Except.ok a

/-- Step "Trigger engine-will-enable event" (both appliers). -/
def stepWillEnable (obs : Option Observer) (u : EngineStateUpdate) (a : DApp) : StepResult :=
  if u.DidAnyEnable then
    fireObs obs (ObsEvent.willEnable u.next.IsOutputEnabled u.next.IsInputEnabled) a
  else Except.ok a

/-- Device applier, step "Configure Voice-Processing I/O". -/
def stepConfigureVP (u : EngineStateUpdate) (a : DApp) : StepResult :=
  if u.next.IsInputEnabled && (a.sys.node_vp_enabled != u.next.voice_processing_enabled) then
    let s1 := { a.sys with node_vp_enabled := u.next.voice_processing_enabled }
    let s2 :=
      if s1.node_vp_enabled then
        let s2a :=
          if decide (u.next.mute_mode = MuteMode.RestartEngine) && s1.node_vp_muted then
            { s1 with node_vp_muted := false }
          else s1
        { s2a with speech_listener := true }
      else s1
    pureStep (fun _ => s2) a
  else Except.ok a

/-- Device applier, step "Enable output" / "Disable output". -/
def stepEnableOutput (env : Env) (obs : Option Observer) (u : EngineStateUpdate)
    (a : DApp) : StepResult :=
  if u.next.IsOutputEnabled && (!u.prev.IsOutputEnabled || u.IsEngineRecreateRequired) then
    if !env.output_format_ok then
      Except.error (kAudioEnginePlayoutDeviceNotAvailableError, a)
    else
      pureStep (fun s => { s with fine_buffer := true, source_node := true }) a >>=
        fireObs obs ObsEvent.willConnectOutput
  else if (u.prev.IsOutputEnabled && !u.next.IsOutputEnabled) && !u.IsEngineRecreateRequired then
    pureStep (fun s => { s with source_node := false }) a
  else Except.ok a

/-- Device applier, step "Enable input" / "Disable input". -/
def stepEnableInput (env : Env) (obs : Option Observer) (u : EngineStateUpdate)
    (a : DApp) : StepResult :=
  if u.next.IsInputEnabled && (!u.prev.IsInputEnabled || u.IsEngineRecreateRequired) then
    if !env.input_format_ok then
      Except.error (kAudioEngineRecordingDeviceNotAvailableError, a)
    else
      pureStep (fun s =>
          { s with
            input_mixer_node := true
            mixer_volume_zero := false
            fine_buffer := true
            converter := true
            converter_buffer := true }) a >>=
        fireObs obs ObsEvent.willConnectInput >>=
        pureStep (fun s =>
          let s' := if !env.observer_connects_input then
              { s with input_node_connected := true }
            else s
          { s' with sink_node := true })
  else if (u.prev.IsInputEnabled && !u.next.IsInputEnabled) && !u.IsEngineRecreateRequired then
    pureStep (fun s =>
      let s1 :=
        if s.node_vp_enabled && s.node_vp_muted then { s with node_vp_muted := false } else s
      { s1 with
        input_mixer_node := false
        sink_node := false
        converter := false
        converter_buffer := false }) a
  else Except.ok a

/-- Step "Trigger engine-did-disable event" (both appliers). -/
def stepDidDisable (obs : Option Observer) (u : EngineStateUpdate) (a : DApp) : StepResult :=
  if u.DidAnyDisable then
    fireObs obs (ObsEvent.didDisable u.next.IsOutputEnabled u.next.IsInputEnabled) a
  else Except.ok a

/-- Device applier, step "Run-time mute toggling if vp mode". -/
def stepVpMute (u : EngineStateUpdate) (a : DApp) : StepResult :=
  if decide (u.next.mute_mode = MuteMode.VoiceProcessing) && u.next.IsInputEnabled &&
      a.sys.node_vp_enabled && (a.sys.node_vp_muted != u.next.input_muted) then
    pureStep (fun s => { s with node_vp_muted := u.next.input_muted }) a
  else Except.ok a

/-- Device applier, step "Run-time mute toggling if mixer mute mode". -/
def stepMixerMute (u : EngineStateUpdate) (a : DApp) : StepResult :=
  if decide (u.next.mute_mode = MuteMode.InputMixer) && u.next.IsInputEnabled &&
      a.sys.input_mixer_node then
    pureStep (fun s => { s with mixer_volume_zero := u.next.input_muted }) a
  else Except.ok a

/-- Device applier, step "Configure other audio ducking". -/
def stepDucking (u : EngineStateUpdate) (a : DApp) : StepResult :=
  if u.next.IsInputEnabled && a.sys.node_vp_enabled &&
      (!u.prev.IsInputEnabled ||
        (decide (u.prev.advanced_ducking ≠ u.next.advanced_ducking) ||
          decide (u.prev.ducking_level ≠ u.next.ducking_level))) then
    pureStep (fun s =>
      { s with
        node_ducking_advanced := u.next.advanced_ducking
        node_ducking_level := u.next.ducking_level }) a
  else Except.ok a

/-- Device applier, step "Bypass voice processing". -/
def stepBypass (u : EngineStateUpdate) (a : DApp) : StepResult :=
  if u.next.IsInputEnabled && a.sys.node_vp_enabled &&
      (a.sys.node_vp_bypassed != u.next.voice_processing_bypassed) then
    pureStep (fun s => { s with node_vp_bypassed := u.next.voice_processing_bypassed }) a
  else Except.ok a

/-- Device applier, step "Configure AGC". -/
def stepAgc (u : EngineStateUpdate) (a : DApp) : StepResult :=
  if u.next.IsInputEnabled && a.sys.node_vp_enabled &&
      (a.sys.node_vp_agc != u.next.voice_processing_agc_enabled) then
    pureStep (fun s => { s with node_vp_agc := u.next.voice_processing_agc_enabled }) a
  else Except.ok a

/-- Device applier, step "Configure device" (macOS). -/
def stepConfigureDevice (u : EngineStateUpdate) (a : DApp) : StepResult :=
  if u.next.IsAnyEnabled && (!u.prev.IsAnyEnabled || u.IsEngineRecreateRequired) then
    pureStep (fun s =>
      let s1 :=
        if u.next.IsInputEnabled && decide (u.next.input_device_id ≠ 0) then
          { s with applied_input_device := some u.next.input_device_id }
        else s
      if u.next.IsOutputEnabled && decide (u.next.output_device_id ≠ 0) then
        { s1 with applied_output_device := some u.next.output_device_id }
      else s1) a
  else Except.ok a

/-- Step "Start playout buffer" (both appliers). -/
def stepStartPlayoutBuffer (u : EngineStateUpdate) (a : DApp) : StepResult :=
  if u.next.IsOutputEnabled && !a.sys.buffer_playing then
    pureStep (fun s => { s with buffer_playing := true }) a
  else Except.ok a

/-- Step "Start recording buffer" (both appliers). -/
def stepStartRecordBuffer (u : EngineStateUpdate) (a : DApp) : StepResult :=
  if u.next.IsInputEnabled && !a.sys.buffer_recording then
    pureStep (fun s => { s with buffer_recording := true }) a
  else Except.ok a

/-- The collaborator-state effect of the start-engine attempt: on
success mark the engine running and register the configuration-change
observer; on final failure emit a `DebugAudioEngine` dump. -/
def startEngineUpdate (env : Env) (s : Sys) : Sys :=
  if (StartEngineWithRetries env.start_ok).started then
    { s with engine_device_running := true, config_observer := true }
  else { s with debug_dumps := s.debug_dumps + 1 }

/-- Device applier, step "Start engine" with the retry loop; a final
start failure is only logged plus `DebugAudioEngine`, not returned. -/
def stepStartEngine (env : Env) (obs : Option Observer) (u : EngineStateUpdate)
    (a : DApp) : StepResult :=
  if u.next.IsAnyRunning &&
      (!u.prev.IsAnyRunning || u.DidEndInterruption ||
        u.IsEngineRestartRequired || u.IsEngineRecreateRequired) then
    fireObs obs (ObsEvent.willStart u.next.IsOutputEnabled u.next.IsInputEnabled) a >>=
      pureStep (startEngineUpdate env)
  else Except.ok a

/-- Device applier, step "Release AVAudioEngine". -/
def stepReleaseEngine (obs : Option Observer) (u : EngineStateUpdate) (a : DApp) : StepResult :=
  if u.prev.IsAnyEnabled && !u.next.IsAnyEnabled then
    fireObs obs ObsEvent.willRelease a >>=
      pureStep (fun s => { s with engine_device := false, engine_device_running := false })
  else Except.ok a

/-- The ordered step pipeline of `AudioEngineDevice::ApplyDeviceEngineState`. -/
def deviceSteps (env : Env) (obs : Option Observer) (u : EngineStateUpdate)
    (a : DApp) : StepResult :=
  stepStopEngine obs u a >>= stepRecreateRelease obs u >>= stepCreate obs u >>=
    stepStopPlayoutBuffer u >>= stepStopRecordBuffer u >>= stepWillEnable obs u >>=
    stepConfigureVP u >>= stepEnableOutput env obs u >>= stepEnableInput env obs u >>=
    stepDidDisable obs u >>= stepVpMute u >>= stepMixerMute u >>= stepDucking u >>=
    stepBypass u >>= stepAgc u >>= stepConfigureDevice u >>= stepStartPlayoutBuffer u >>=
    stepStartRecordBuffer u >>= stepStartEngine env obs u >>= stepReleaseEngine obs u

/-- `AudioEngineDevice::ApplyDeviceEngineState`: run the pipeline; on a
non-zero result run the accumulated rollback actions (the source iterates
the vector in push order).  Returns (code, collaborator state, events). -/
def ApplyDeviceEngineState (env : Env) (obs : Option Observer) (u : EngineStateUpdate)
    (s : Sys) : Int × Sys × List ObsEvent :=
  match deviceSteps env obs u { sys := s, events := [], rollback := [] } with
  | Except.ok a => (0, a.sys, a.events)
  | Except.error (r, a) => (r, a.rollback.foldl runRollbackAction a.sys, a.events)

/-- Manual applier, step 1: stop engine, stop and join render thread,
release render/read buffers, then fire `OnEngineDidStop`. -/
def mStepStop (obs : Option Observer) (u : EngineStateUpdate) (a : DApp) : StepResult :=
  if u.prev.IsAnyRunning && !u.next.IsAnyRunning then
    fireObs obs (ObsEvent.didStop u.next.IsOutputEnabled u.next.IsInputEnabled)
      { a with sys := { a.sys with
          engine_manual_running := false
          render_thread := false
          render_block := false
          render_buffer := false
          read_buffer := false } }
  else Except.ok a

/-- Manual applier, step 2: create the manual engine (a
`enableManualRenderingMode` failure is only logged). -/
def mStepCreate (obs : Option Observer) (u : EngineStateUpdate) (a : DApp) : StepResult :=
  if u.next.IsAnyEnabled && !u.prev.IsAnyEnabled then
    pureStep (fun s => { s with engine_manual := true }) a >>=
      fireObs obs ObsEvent.didCreate
  else Except.ok a

/-- Manual applier, enable-output step (configure formats, reset
`FineAudioBuffer`; the disable direction only logs). -/
def mStepEnableOutput (u : EngineStateUpdate) (a : DApp) : StepResult :=
  if u.next.IsOutputEnabled && !u.prev.IsOutputEnabled then
    pureStep (fun s => { s with fine_buffer := true }) a
  else Except.ok a

/-- Manual applier, enable-input step: reset buffer, fire
`OnEngineWillConnectInput`, connect main-mixer to output node. -/
def mStepEnableInput (obs : Option Observer) (u : EngineStateUpdate) (a : DApp) : StepResult :=
  if u.next.IsInputEnabled && !u.prev.IsInputEnabled then
    pureStep (fun s => { s with fine_buffer := true }) a >>=
      fireObs obs ObsEvent.willConnectInput >>=
      pureStep (fun s => { s with manual_main_connected := true })
  else Except.ok a

/-- Manual applier, start step: fire `OnEngineWillStart`, allocate the
render/read PCM buffers, start the engine (failure logged +
`DebugAudioEngine` only), capture the render block, spawn the render
thread. -/
def mStepStart (env : Env) (obs : Option Observer) (u : EngineStateUpdate)
    (a : DApp) : StepResult :=
  if u.next.IsAnyRunning && !u.prev.IsAnyRunning then
    fireObs obs (ObsEvent.willStart u.next.IsOutputEnabled u.next.IsInputEnabled) a >>=
      pureStep (fun s =>
        let s1 := { s with render_buffer := true, read_buffer := true }
        let s2 :=
          if env.manual_start_ok then { s1 with engine_manual_running := true }
          else { s1 with debug_dumps := s1.debug_dumps + 1 }
        { s2 with render_block := true, render_thread := true })
  else Except.ok a

/-- Manual applier, release step. -/
def mStepRelease (obs : Option Observer) (u : EngineStateUpdate) (a : DApp) : StepResult :=
  if u.prev.IsAnyEnabled && !u.next.IsAnyEnabled then
    fireObs obs ObsEvent.willRelease a >>=
      pureStep (fun s => { s with engine_manual := false })
  else Except.ok a

/-- The ordered step pipeline of `AudioEngineDevice::ApplyManualEngineState`. -/
def manualSteps (env : Env) (obs : Option Observer) (u : EngineStateUpdate)
    (a : DApp) : StepResult :=
  mStepStop obs u a >>= mStepCreate obs u >>= stepStopPlayoutBuffer u >>=
    stepStopRecordBuffer u >>= stepWillEnable obs u >>= mStepEnableOutput u >>=
    mStepEnableInput obs u >>= stepDidDisable obs u >>= stepStartPlayoutBuffer u >>=
    stepStartRecordBuffer u >>= mStepStart env obs u >>= mStepRelease obs u

/-- `AudioEngineDevice::ApplyManualEngineState` (no rollback list). -/
def ApplyManualEngineState (env : Env) (obs : Option Observer) (u : EngineStateUpdate)
    (s : Sys) : Int × Sys × List ObsEvent :=
  match manualSteps env obs u { sys := s, events := [], rollback := [] } with
  | Except.ok a => (0, a.sys, a.events)
  | Except.error (r, a) => (r, a.sys, a.events)

/-- `AudioEngineDevice::ModifyEngineState`: diff, no-op check, validity
check, dispatch, and commit on success.  Returns (code, committed
`engine_state_`, collaborator state, fired observer events).

In the render-mode-switch branches the source builds
`shutdown_state = {prev = current, next = default}` for the first
applier, and then executes `shutdown_state.prev = {}` — a dead store,
since the diff handed to the second (startup) applier is the unmodified
`state` whose `prev` is the current state.  The embedding reproduces
that faithfully.

`dispatchEngineState` is the dispatch part of `ModifyEngineState`,
returning (`shutdown_result`, `startup_result`, collaborator state,
events). -/
def dispatchEngineState (env : Env) (obs : Option Observer) (u : EngineStateUpdate)
    (s : Sys) : Int × Int × Sys × List ObsEvent :=
  if u.DidEnableManualRenderingMode then
    let d1 := ApplyDeviceEngineState env obs ⟨u.prev, EngineState.defaultState⟩ s
    let d2 := ApplyManualEngineState env obs u d1.2.1
    (d1.1, d2.1, d2.2.1, d1.2.2 ++ d2.2.2)
  else if u.DidEnableDeviceRenderingMode then
    let d1 := ApplyManualEngineState env obs ⟨u.prev, EngineState.defaultState⟩ s
    let d2 := ApplyDeviceEngineState env obs u d1.2.1
    (d1.1, d2.1, d2.2.1, d1.2.2 ++ d2.2.2)
  else if decide (u.next.render_mode = RenderMode.Device) then
    let d := ApplyDeviceEngineState env obs u s
    (d.1, (0 : Int), d.2.1, d.2.2)
  else
    let d := ApplyManualEngineState env obs u s
    ((0 : Int), d.1, d.2.1, d.2.2)

/-- `AudioEngineDevice::ModifyEngineState`: diff, no-op check, validity
checks, dispatch (`dispatchEngineState`), and commit on success. -/
def ModifyEngineState (env : Env) (obs : Option Observer) (tf : EngineState → EngineState)
    (es : EngineState) (s : Sys) : Int × EngineState × Sys × List ObsEvent :=
  let new_state := tf es
  let u : EngineStateUpdate := ⟨es, new_state⟩
  if u.HasNoChanges then (0, es, s, [])
  else if new_state.input_running && !new_state.input_enabled then (-1, es, s, [])
  else if new_state.output_running && !new_state.output_enabled then (-1, es, s, [])
  else
    let rst := dispatchEngineState env obs u s
    let return_result := if rst.1 ≠ 0 then rst.1 else rst.2.1
    if return_result = 0 then (0, new_state, rst.2.2.1, rst.2.2.2)
    else (return_result, es, rst.2.2.1, rst.2.2.2)

/-- `AudioEngineDevice::StartRecording`'s state transform. -/
def startRecordingTransform (st : EngineState) : EngineState :=
  { st with input_running := true, input_muted := false }

/-- `AudioEngineDevice::InitAndStartRecording`'s state transform. -/
def initAndStartRecordingTransform (st : EngineState) : EngineState :=
  { st with input_enabled := true, input_running := true, input_muted := false }

/-- `AudioEngineDevice::SetMicrophoneMute`'s state transform. -/
def setMicrophoneMuteTransform (enable : Bool) (st : EngineState) : EngineState :=
  { st with input_muted := enable }

/-- `AudioEngineDevice::SetManualRenderingMode`'s state transform. -/
def setManualRenderingModeTransform (enable : Bool) (st : EngineState) : EngineState :=
  { st with render_mode := if enable then RenderMode.Manual else RenderMode.Device }

/-- `AudioEngineDevice::StartRecording`. -/
def StartRecording (env : Env) (obs : Option Observer) (es : EngineState) (s : Sys) :
    Int × EngineState × Sys × List ObsEvent :=
  ModifyEngineState env obs startRecordingTransform es s

/-- `AudioEngineDevice::InitAndStartRecording`. -/
def InitAndStartRecording (env : Env) (obs : Option Observer) (es : EngineState) (s : Sys) :
    Int × EngineState × Sys × List ObsEvent :=
  ModifyEngineState env obs initAndStartRecordingTransform es s

/-- C5: `IsEngineRecreateRequired` holds iff the output device id changed,
or the input device id changed, or the default-output update counter
changed while the next output selection is the default device, or the
default-input update counter changed while the next input selection is the
default device, or prev and next both have output enabled while input goes
from enabled to disabled. -/
theorem c5_recreate_required (u : EngineStateUpdate) :
    u.IsEngineRecreateRequired = true ↔
      (u.prev.output_device_id ≠ u.next.output_device_id ∨
        u.prev.input_device_id ≠ u.next.input_device_id ∨
        (u.prev.default_output_device_update_count ≠
            u.next.default_output_device_update_count ∧
          u.next.IsOutputDefaultDevice = true) ∨
        (u.prev.default_input_device_update_count ≠
            u.next.default_input_device_update_count ∧
          u.next.IsInputDefaultDevice = true) ∨
        (u.prev.IsOutputEnabled = true ∧ u.next.IsOutputEnabled = true ∧
          u.prev.IsInputEnabled = true ∧ u.next.IsInputEnabled = false)) := by
  simp only [EngineStateUpdate.IsEngineRecreateRequired,
    EngineStateUpdate.DidUpdateOutputDevice, EngineStateUpdate.DidUpdateInputDevice,
    EngineStateUpdate.DidUpdateDefaultOutputDevice,
    EngineStateUpdate.DidUpdateDefaultInputDevice, Bool.or_eq_true,
    Bool.and_eq_true, Bool.not_eq_true', decide_eq_true_eq]
  tauto

/-- `ModifyEngineState` commits the transformed state exactly on a zero
result; on a non-zero result the committed `engine_state_` is the
previous one. -/
theorem modify_committed (env : Env) (obs : Option Observer)
    (tf : EngineState → EngineState) (es : EngineState) (s : Sys) :
    ((ModifyEngineState env obs tf es s).1 = 0 →
      (ModifyEngineState env obs tf es s).2.1 = tf es) ∧
    ((ModifyEngineState env obs tf es s).1 ≠ 0 →
      (ModifyEngineState env obs tf es s).2.1 = es) := by
  unfold ModifyEngineState
  dsimp only
  split
  case isTrue hnc =>
    refine ⟨fun _ => ?_, fun _ => rfl⟩
    simp only [EngineStateUpdate.HasNoChanges, decide_eq_true_eq] at hnc
    simpa using hnc
  case isFalse =>
    split
    · exact ⟨fun h => by simp at h, fun _ => rfl⟩
    · split
      · exact ⟨fun h => by simp at h, fun _ => rfl⟩
      · split <;> try split
        all_goals
          first
            | exact ⟨fun _ => rfl, fun h => by simp at h⟩
            | (rename_i hr; exact ⟨fun h => absurd h hr, fun _ => rfl⟩)

/-- A fully shut down collaborator state: nothing playing or recording,
no engine objects, no nodes, no render resources. -/
def sysAllOff : Sys where
  buffer_playing := false
  buffer_recording := false
  fine_buffer := false
  engine_device := false
  engine_device_running := false
  config_observer := false
  source_node := false
  sink_node := false
  input_mixer_node := false
  input_node_connected := false
  mixer_volume_zero := false
  converter := false
  converter_buffer := false
  node_vp_enabled := false
  node_vp_muted := false
  node_vp_bypassed := false
  node_vp_agc := false
  speech_listener := false
  node_ducking_advanced := false
  node_ducking_level := 0
  applied_input_device := none
  applied_output_device := none
  engine_manual := false
  engine_manual_running := false
  manual_main_connected := false
  render_thread := false
  render_buffer := false
  read_buffer := false
  render_block := false
  debug_dumps := 0

/-- An environment where all hardware formats are available and every
start attempt succeeds. -/
def envAllOk : Env where
  output_format_ok := true
  input_format_ok := true
  observer_connects_input := false
  manual_start_ok := true
  start_ok := fun _ => true

/-- An observer that accepts every callback. -/
def obsAllZero : Observer := fun _ => 0

/-- C6: when the transform's result is field-wise equal to the committed
state (`HasNoChanges`), `ModifyEngineState` returns 0 immediately: no
applier runs, no observer event fires (empty trace), the collaborator
state — buffer flags and engine objects included — is returned
unchanged, and the committed state is unchanged. -/
theorem c6_no_changes_is_noop (env : Env) (obs : Option Observer)
    (tf : EngineState → EngineState) (es : EngineState) (s : Sys)
    (h : tf es = es) :
    ModifyEngineState env obs tf es s = (0, es, s, []) := by
  unfold ModifyEngineState
  simp [EngineStateUpdate.HasNoChanges, h]

/-- Witness for C6 at a concrete input: the identity transform on the
default state is a no-op. -/
theorem c6_no_changes_is_noop_witness :
    ModifyEngineState envAllOk (some obsAllZero) (fun st => st)
      EngineState.defaultState sysAllOff =
      (0, EngineState.defaultState, sysAllOff, []) :=
  c6_no_changes_is_noop envAllOk (some obsAllZero) (fun st => st)
    EngineState.defaultState sysAllOff rfl

/-- C4: when the transform's result differs from the committed state and
has `input_running` without `input_enabled`, or `output_running` without
`output_enabled`, `ModifyEngineState` returns the error `-1` before any
applier runs: committed state, buffer flags and engine objects are all
unchanged and no observer event fires. -/
theorem c4_invalid_state_rejected (env : Env) (obs : Option Observer)
    (tf : EngineState → EngineState) (es : EngineState) (s : Sys)
    (hchange : tf es ≠ es)
    (hbad : ((tf es).input_running = true ∧ (tf es).input_enabled = false) ∨
      ((tf es).output_running = true ∧ (tf es).output_enabled = false)) :
    ModifyEngineState env obs tf es s = (-1, es, s, []) := by
  have hne : ¬(es = tf es) := fun hc => hchange hc.symm
  unfold ModifyEngineState
  rcases hbad with ⟨h1, h2⟩ | ⟨h1, h2⟩
  · simp [EngineStateUpdate.HasNoChanges, hne, h1, h2]
  · simp [EngineStateUpdate.HasNoChanges, hne, h1, h2]

/-- Witness for C4: requesting `input_running` while `input_enabled`
stays false is rejected with −1 and mutates nothing. -/
theorem c4_invalid_state_rejected_witness :
    ModifyEngineState envAllOk (some obsAllZero)
      (fun st => { st with input_running := true })
      EngineState.defaultState sysAllOff =
      (-1, EngineState.defaultState, sysAllOff, []) :=
  c4_invalid_state_rejected envAllOk (some obsAllZero)
    (fun st => { st with input_running := true })
    EngineState.defaultState sysAllOff (by decide) (Or.inl (by decide))

/-- C10: `input_muted` defaults to true on construction, and the
transforms of both `StartRecording` and `InitAndStartRecording` clear
it, so whenever either setter returns 0 the committed state has
`input_muted = false`. -/
theorem c10_start_recording_unmutes (env : Env) (obs : Option Observer)
    (es : EngineState) (s : Sys) :
    EngineState.defaultState.input_muted = true ∧
    ((StartRecording env obs es s).1 = 0 →
      (StartRecording env obs es s).2.1.input_muted = false) ∧
    ((InitAndStartRecording env obs es s).1 = 0 →
      (InitAndStartRecording env obs es s).2.1.input_muted = false) := by
  refine ⟨rfl, fun h => ?_, fun h => ?_⟩
  · have hc := (modify_committed env obs startRecordingTransform es s).1 h
    show (ModifyEngineState env obs startRecordingTransform es s).2.1.input_muted = false
    rw [hc]
    rfl
  · have hc := (modify_committed env obs initAndStartRecordingTransform es s).1 h
    show (ModifyEngineState env obs initAndStartRecordingTransform es s).2.1.input_muted = false
    rw [hc]
    rfl

/-- Witness for C10: starting recording from the freshly initialised
(and hence muted) state commits `input_muted = false`. -/
theorem c10_start_recording_unmutes_witness :
    EngineState.defaultState.input_muted = true ∧
    (StartRecording envAllOk (some obsAllZero)
      { EngineState.defaultState with input_enabled := true } sysAllOff).2.1.input_muted
      = false :=
  ⟨(c10_start_recording_unmutes envAllOk (some obsAllZero)
      { EngineState.defaultState with input_enabled := true } sysAllOff).1,
    (c10_start_recording_unmutes envAllOk (some obsAllZero)
      { EngineState.defaultState with input_enabled := true } sysAllOff).2.1 (by decide)⟩

/-- The first non-zero observer return in a list of fired events. -/
def firstErr (f : Observer) : List ObsEvent → Option Int
  | [] => none
  | e :: es => if f e = 0 then firstErr f es else some (f e)

theorem firstErr_append (f : Observer) (es1 es2 : List ObsEvent) :
    firstErr f (es1 ++ es2) =
      match firstErr f es1 with
      | some v => some v
      | none => firstErr f es2 := by
  induction es1 with
  | nil => rfl
  | cons e es ih => by_cases h : f e = 0 <;> simp [firstErr, h, ih]

theorem firstErr_ne_zero (f : Observer) (es : List ObsEvent) (v : Int)
    (h : firstErr f es = some v) : v ≠ 0 := by
  induction es with
  | nil => simp [firstErr] at h
  | cons e es ih =>
    by_cases he : f e = 0
    · exact ih (by simpa [firstErr, he] using h)
    · simp only [firstErr, if_neg he, Option.some.injEq] at h
      exact h ▸ he

/-- Weak step specification: starting from a clean event trace, a step
keeps the trace clean on success; on failure the trace either pinpoints
the returned code as the first observer error, or stays clean (the
device-unavailable error returns). -/
def StepSpec (f : Observer) (F : DApp → StepResult) : Prop :=
  ∀ a, firstErr f a.events = none →
    (∀ a', F a = Except.ok a' → firstErr f a'.events = none) ∧
    (∀ r a', F a = Except.error (r, a') →
      firstErr f a'.events = some r ∨ firstErr f a'.events = none)

/-- Strict step specification: on failure the trace always pinpoints the
returned code (steps without device-unavailable returns). -/
def StepSpecS (f : Observer) (F : DApp → StepResult) : Prop :=
  ∀ a, firstErr f a.events = none →
    (∀ a', F a = Except.ok a' → firstErr f a'.events = none) ∧
    (∀ r a', F a = Except.error (r, a') → firstErr f a'.events = some r)

theorem stepSpec_of_strict {f : Observer} {F : DApp → StepResult}
    (h : StepSpecS f F) : StepSpec f F := by
  intro a ha
  exact ⟨(h a ha).1, fun r a' hr => Or.inl ((h a ha).2 r a' hr)⟩

theorem stepSpec_bind {f : Observer} {F G : DApp → StepResult}
    (hF : StepSpec f F) (hG : StepSpec f G) :
    StepSpec f (fun a => F a >>= G) := by
  intro a ha
  cases hFa : F a with
  | error e =>
    obtain ⟨r0, a0⟩ := e
    refine ⟨fun a' h => ?_, fun r a' h => ?_⟩
    · simp [hFa, Bind.bind, Except.bind] at h
    · simp only [hFa, Bind.bind, Except.bind] at h
      injection h with h2
      rw [Prod.mk.injEq] at h2
      obtain ⟨hr, ha'⟩ := h2
      subst hr
      subst ha'
      exact (hF a ha).2 r0 a0 hFa
  | ok b =>
    have hb : firstErr f b.events = none := (hF a ha).1 b hFa
    refine ⟨fun a' h => ?_, fun r a' h => ?_⟩
    · simp only [hFa, Bind.bind, Except.bind] at h
      exact (hG b hb).1 a' h
    · simp only [hFa, Bind.bind, Except.bind] at h
      exact (hG b hb).2 r a' h

theorem stepSpecS_bind {f : Observer} {F G : DApp → StepResult}
    (hF : StepSpecS f F) (hG : StepSpecS f G) :
    StepSpecS f (fun a => F a >>= G) := by
  intro a ha
  cases hFa : F a with
  | error e =>
    obtain ⟨r0, a0⟩ := e
    refine ⟨fun a' h => ?_, fun r a' h => ?_⟩
    · simp [hFa, Bind.bind, Except.bind] at h
    · simp only [hFa, Bind.bind, Except.bind] at h
      injection h with h2
      rw [Prod.mk.injEq] at h2
      obtain ⟨hr, ha'⟩ := h2
      subst hr
      subst ha'
      exact (hF a ha).2 r0 a0 hFa
  | ok b =>
    have hb : firstErr f b.events = none := (hF a ha).1 b hFa
    refine ⟨fun a' h => ?_, fun r a' h => ?_⟩
    · simp only [hFa, Bind.bind, Except.bind] at h
      exact (hG b hb).1 a' h
    · simp only [hFa, Bind.bind, Except.bind] at h
      exact (hG b hb).2 r a' h

theorem ok_spec (f : Observer) : StepSpecS f Except.ok := by
  intro a ha
  refine ⟨fun a' h => ?_, fun r a' h => ?_⟩
  · cases h
    exact ha
  · cases h

theorem pureStep_spec (f : Observer) (g : Sys → Sys) : StepSpecS f (pureStep g) := by
  intro a ha
  refine ⟨fun a' h => ?_, fun r a' h => ?_⟩
  · cases h
    exact ha
  · cases h

theorem pushRollback_spec (f : Observer) (act : RollbackAction) :
    StepSpecS f (pushRollback act) := by
  intro a ha
  refine ⟨fun a' h => ?_, fun r a' h => ?_⟩
  · cases h
    exact ha
  · cases h

theorem fireObs_spec (f : Observer) (e : ObsEvent) :
    StepSpecS f (fireObs (some f) e) := by
  intro a ha
  by_cases he : f e = 0
  · refine ⟨fun a' h => ?_, fun r a' h => ?_⟩
    · simp only [fireObs, if_pos he] at h
      cases h
      simp [firstErr_append, ha, firstErr, he]
    · simp [fireObs, if_pos he] at h
  · refine ⟨fun a' h => ?_, fun r a' h => ?_⟩
    · simp [fireObs, if_neg he] at h
    · simp only [fireObs, if_neg he] at h
      cases h
      simp [firstErr_append, ha, firstErr, if_neg he]

theorem stepStopEngine_spec (f : Observer) (u : EngineStateUpdate) :
    StepSpecS f (stepStopEngine (some f) u) := by
  intro a ha
  unfold stepStopEngine
  split
  · exact fireObs_spec f _ _ ha
  · exact ok_spec f a ha

theorem stepRecreateRelease_spec (f : Observer) (u : EngineStateUpdate) :
    StepSpecS f (stepRecreateRelease (some f) u) := by
  intro a ha
  unfold stepRecreateRelease
  split
  · exact stepSpecS_bind (fireObs_spec f _) (pureStep_spec f _) a ha
  · exact ok_spec f a ha

theorem stepCreate_spec (f : Observer) (u : EngineStateUpdate) :
    StepSpecS f (stepCreate (some f) u) := by
  intro a ha
  unfold stepCreate
  split
  · exact stepSpecS_bind
      (stepSpecS_bind (pureStep_spec f _) (pushRollback_spec f _)) (fireObs_spec f _) a ha
  · exact ok_spec f a ha

theorem stepStopPlayoutBuffer_spec (f : Observer) (u : EngineStateUpdate) :
    StepSpecS f (stepStopPlayoutBuffer u) := by
  intro a ha
  unfold stepStopPlayoutBuffer
  split
  · exact pureStep_spec f _ a ha
  · exact ok_spec f a ha

theorem stepStopRecordBuffer_spec (f : Observer) (u : EngineStateUpdate) :
    StepSpecS f (stepStopRecordBuffer u) := by
  intro a ha
  unfold stepStopRecordBuffer
  split
  · exact pureStep_spec f _ a ha
  · exact ok_spec f a ha

theorem stepWillEnable_spec (f : Observer) (u : EngineStateUpdate) :
    StepSpecS f (stepWillEnable (some f) u) := by
  intro a ha
  unfold stepWillEnable
  split
  · exact fireObs_spec f _ a ha
  · exact ok_spec f a ha

theorem stepConfigureVP_spec (f : Observer) (u : EngineStateUpdate) :
    StepSpecS f (stepConfigureVP u) := by
  intro a ha
  unfold stepConfigureVP
  split
  · exact pureStep_spec f _ a ha
  · exact ok_spec f a ha

theorem stepEnableOutput_spec (env : Env) (f : Observer) (u : EngineStateUpdate) :
    StepSpec f (stepEnableOutput env (some f) u) := by
  intro a ha
  unfold stepEnableOutput
  split
  · split
    · refine ⟨fun a' h => by simp at h, fun r a' h => ?_⟩
      injection h with h2
      rw [Prod.mk.injEq] at h2
      obtain ⟨hr, ha'⟩ := h2
      subst hr
      subst ha'
      exact Or.inr ha
    · exact stepSpec_of_strict
        (stepSpecS_bind (pureStep_spec f _) (fireObs_spec f _)) a ha
  · split
    · exact stepSpec_of_strict (pureStep_spec f _) a ha
    · exact stepSpec_of_strict (ok_spec f) a ha

/-- When the diff's `next` has output disabled (as in the device-side
shutdown diff, whose `next` is the default state), the enable-output
step cannot return the device-unavailable error. -/
theorem stepEnableOutput_specS (env : Env) (f : Observer) (u : EngineStateUpdate)
    (hOut : u.next.IsOutputEnabled = false) :
    StepSpecS f (stepEnableOutput env (some f) u) := by
  intro a ha
  unfold stepEnableOutput
  rw [hOut]
  simp only [Bool.false_and, Bool.false_eq_true, if_false]
  split
  · exact pureStep_spec f _ a ha
  · exact ok_spec f a ha

theorem stepEnableInput_spec (env : Env) (f : Observer) (u : EngineStateUpdate) :
    StepSpec f (stepEnableInput env (some f) u) := by
  intro a ha
  unfold stepEnableInput
  split
  · split
    · refine ⟨fun a' h => by simp at h, fun r a' h => ?_⟩
      injection h with h2
      rw [Prod.mk.injEq] at h2
      obtain ⟨hr, ha'⟩ := h2
      subst hr
      subst ha'
      exact Or.inr ha
    · exact stepSpec_of_strict
        (stepSpecS_bind (stepSpecS_bind (pureStep_spec f _) (fireObs_spec f _))
          (pureStep_spec f _)) a ha
  · split
    · exact stepSpec_of_strict (pureStep_spec f _) a ha
    · exact stepSpec_of_strict (ok_spec f) a ha

/-- When the diff's `next` has input disabled, the enable-input step
cannot return the device-unavailable error. -/
theorem stepEnableInput_specS (env : Env) (f : Observer) (u : EngineStateUpdate)
    (hIn : u.next.IsInputEnabled = false) :
    StepSpecS f (stepEnableInput env (some f) u) := by
  intro a ha
  unfold stepEnableInput
  rw [hIn]
  simp only [Bool.false_and, Bool.false_eq_true, if_false]
  split
  · exact pureStep_spec f _ a ha
  · exact ok_spec f a ha

theorem stepDidDisable_spec (f : Observer) (u : EngineStateUpdate) :
    StepSpecS f (stepDidDisable (some f) u) := by
  intro a ha
  unfold stepDidDisable
  split
  · exact fireObs_spec f _ a ha
  · exact ok_spec f a ha

theorem stepVpMute_spec (f : Observer) (u : EngineStateUpdate) :
    StepSpecS f (stepVpMute u) := by
  intro a ha
  unfold stepVpMute
  split
  · exact pureStep_spec f _ a ha
  · exact ok_spec f a ha

theorem stepMixerMute_spec (f : Observer) (u : EngineStateUpdate) :
    StepSpecS f (stepMixerMute u) := by
  intro a ha
  unfold stepMixerMute
  split
  · exact pureStep_spec f _ a ha
  · exact ok_spec f a ha

theorem stepDucking_spec (f : Observer) (u : EngineStateUpdate) :
    StepSpecS f (stepDucking u) := by
  intro a ha
  unfold stepDucking
  split
  · exact pureStep_spec f _ a ha
  · exact ok_spec f a ha

theorem stepBypass_spec (f : Observer) (u : EngineStateUpdate) :
    StepSpecS f (stepBypass u) := by
  intro a ha
  unfold stepBypass
  split
  · exact pureStep_spec f _ a ha
  · exact ok_spec f a ha

theorem stepAgc_spec (f : Observer) (u : EngineStateUpdate) :
    StepSpecS f (stepAgc u) := by
  intro a ha
  unfold stepAgc
  split
  · exact pureStep_spec f _ a ha
  · exact ok_spec f a ha

theorem stepConfigureDevice_spec (f : Observer) (u : EngineStateUpdate) :
    StepSpecS f (stepConfigureDevice u) := by
  intro a ha
  unfold stepConfigureDevice
  split
  · exact pureStep_spec f _ a ha
  · exact ok_spec f a ha

theorem stepStartPlayoutBuffer_spec (f : Observer) (u : EngineStateUpdate) :
    StepSpecS f (stepStartPlayoutBuffer u) := by
  intro a ha
  unfold stepStartPlayoutBuffer
  split
  · exact pureStep_spec f _ a ha
  · exact ok_spec f a ha

theorem stepStartRecordBuffer_spec (f : Observer) (u : EngineStateUpdate) :
    StepSpecS f (stepStartRecordBuffer u) := by
  intro a ha
  unfold stepStartRecordBuffer
  split
  · exact pureStep_spec f _ a ha
  · exact ok_spec f a ha

theorem stepStartEngine_spec (env : Env) (f : Observer) (u : EngineStateUpdate) :
    StepSpecS f (stepStartEngine env (some f) u) := by
  intro a ha
  unfold stepStartEngine
  split
  · exact stepSpecS_bind (fireObs_spec f _) (pureStep_spec f _) a ha
  · exact ok_spec f a ha

theorem stepReleaseEngine_spec (f : Observer) (u : EngineStateUpdate) :
    StepSpecS f (stepReleaseEngine (some f) u) := by
  intro a ha
  unfold stepReleaseEngine
  split
  · exact stepSpecS_bind (fireObs_spec f _) (pureStep_spec f _) a ha
  · exact ok_spec f a ha

theorem mStepStop_spec (f : Observer) (u : EngineStateUpdate) :
    StepSpecS f (mStepStop (some f) u) := by
  intro a ha
  unfold mStepStop
  split
  · exact fireObs_spec f _ _ ha
  · exact ok_spec f a ha

theorem mStepCreate_spec (f : Observer) (u : EngineStateUpdate) :
    StepSpecS f (mStepCreate (some f) u) := by
  intro a ha
  unfold mStepCreate
  split
  · exact stepSpecS_bind (pureStep_spec f _) (fireObs_spec f _) a ha
  · exact ok_spec f a ha

theorem mStepEnableOutput_spec (f : Observer) (u : EngineStateUpdate) :
    StepSpecS f (mStepEnableOutput u) := by
  intro a ha
  unfold mStepEnableOutput
  split
  · exact pureStep_spec f _ a ha
  · exact ok_spec f a ha

theorem mStepEnableInput_spec (f : Observer) (u : EngineStateUpdate) :
    StepSpecS f (mStepEnableInput (some f) u) := by
  intro a ha
  unfold mStepEnableInput
  split
  · exact stepSpecS_bind (stepSpecS_bind (pureStep_spec f _) (fireObs_spec f _))
      (pureStep_spec f _) a ha
  · exact ok_spec f a ha

theorem mStepStart_spec (env : Env) (f : Observer) (u : EngineStateUpdate) :
    StepSpecS f (mStepStart env (some f) u) := by
  intro a ha
  unfold mStepStart
  split
  · exact stepSpecS_bind (fireObs_spec f _) (pureStep_spec f _) a ha
  · exact ok_spec f a ha

theorem mStepRelease_spec (f : Observer) (u : EngineStateUpdate) :
    StepSpecS f (mStepRelease (some f) u) := by
  intro a ha
  unfold mStepRelease
  split
  · exact stepSpecS_bind (fireObs_spec f _) (pureStep_spec f _) a ha
  · exact ok_spec f a ha

theorem deviceSteps_spec (env : Env) (f : Observer) (u : EngineStateUpdate) :
    StepSpec f (deviceSteps env (some f) u) :=
  stepSpec_bind (stepSpec_bind (stepSpec_bind (stepSpec_bind (stepSpec_bind
    (stepSpec_bind (stepSpec_bind (stepSpec_bind (stepSpec_bind (stepSpec_bind
    (stepSpec_bind (stepSpec_bind (stepSpec_bind (stepSpec_bind (stepSpec_bind
    (stepSpec_bind (stepSpec_bind (stepSpec_bind (stepSpec_bind
      (stepSpec_of_strict (stepStopEngine_spec f u))
      (stepSpec_of_strict (stepRecreateRelease_spec f u)))
      (stepSpec_of_strict (stepCreate_spec f u)))
      (stepSpec_of_strict (stepStopPlayoutBuffer_spec f u)))
      (stepSpec_of_strict (stepStopRecordBuffer_spec f u)))
      (stepSpec_of_strict (stepWillEnable_spec f u)))
      (stepSpec_of_strict (stepConfigureVP_spec f u)))
      (stepEnableOutput_spec env f u))
      (stepEnableInput_spec env f u))
      (stepSpec_of_strict (stepDidDisable_spec f u)))
      (stepSpec_of_strict (stepVpMute_spec f u)))
      (stepSpec_of_strict (stepMixerMute_spec f u)))
      (stepSpec_of_strict (stepDucking_spec f u)))
      (stepSpec_of_strict (stepBypass_spec f u)))
      (stepSpec_of_strict (stepAgc_spec f u)))
      (stepSpec_of_strict (stepConfigureDevice_spec f u)))
      (stepSpec_of_strict (stepStartPlayoutBuffer_spec f u)))
      (stepSpec_of_strict (stepStartRecordBuffer_spec f u)))
      (stepSpec_of_strict (stepStartEngine_spec env f u)))
      (stepSpec_of_strict (stepReleaseEngine_spec f u))

/-- Strict version for diffs whose `next` enables neither side (the
device-side shutdown diff with `next = default`). -/
theorem deviceSteps_specS (env : Env) (f : Observer) (u : EngineStateUpdate)
    (hOut : u.next.IsOutputEnabled = false) (hIn : u.next.IsInputEnabled = false) :
    StepSpecS f (deviceSteps env (some f) u) :=
  stepSpecS_bind (stepSpecS_bind (stepSpecS_bind (stepSpecS_bind (stepSpecS_bind
    (stepSpecS_bind (stepSpecS_bind (stepSpecS_bind (stepSpecS_bind (stepSpecS_bind
    (stepSpecS_bind (stepSpecS_bind (stepSpecS_bind (stepSpecS_bind (stepSpecS_bind
    (stepSpecS_bind (stepSpecS_bind (stepSpecS_bind (stepSpecS_bind
      (stepStopEngine_spec f u)
      (stepRecreateRelease_spec f u))
      (stepCreate_spec f u))
      (stepStopPlayoutBuffer_spec f u))
      (stepStopRecordBuffer_spec f u))
      (stepWillEnable_spec f u))
      (stepConfigureVP_spec f u))
      (stepEnableOutput_specS env f u hOut))
      (stepEnableInput_specS env f u hIn))
      (stepDidDisable_spec f u))
      (stepVpMute_spec f u))
      (stepMixerMute_spec f u))
      (stepDucking_spec f u))
      (stepBypass_spec f u))
      (stepAgc_spec f u))
      (stepConfigureDevice_spec f u))
      (stepStartPlayoutBuffer_spec f u))
      (stepStartRecordBuffer_spec f u))
      (stepStartEngine_spec env f u))
      (stepReleaseEngine_spec f u)

theorem manualSteps_specS (env : Env) (f : Observer) (u : EngineStateUpdate) :
    StepSpecS f (manualSteps env (some f) u) :=
  stepSpecS_bind (stepSpecS_bind (stepSpecS_bind (stepSpecS_bind (stepSpecS_bind
    (stepSpecS_bind (stepSpecS_bind (stepSpecS_bind (stepSpecS_bind (stepSpecS_bind
    (stepSpecS_bind
      (mStepStop_spec f u)
      (mStepCreate_spec f u))
      (stepStopPlayoutBuffer_spec f u))
      (stepStopRecordBuffer_spec f u))
      (stepWillEnable_spec f u))
      (mStepEnableOutput_spec f u))
      (mStepEnableInput_spec f u))
      (stepDidDisable_spec f u))
      (stepStartPlayoutBuffer_spec f u))
      (stepStartRecordBuffer_spec f u))
      (mStepStart_spec env f u))
      (mStepRelease_spec f u)

theorem defaultState_IsOutputEnabled :
    EngineState.defaultState.IsOutputEnabled = false := by decide

theorem defaultState_IsInputEnabled :
    EngineState.defaultState.IsInputEnabled = false := by decide

/-- If the device applier's event trace contains a failing observer
return, the applier's result is exactly the first such return value. -/
theorem applyDevice_firstErr (env : Env) (f : Observer) (u : EngineStateUpdate)
    (s : Sys) (v : Int)
    (hv : firstErr f (ApplyDeviceEngineState env (some f) u s).2.2 = some v) :
    (ApplyDeviceEngineState env (some f) u s).1 = v := by
  have hspec := deviceSteps_spec env f u ⟨s, [], []⟩ rfl
  unfold ApplyDeviceEngineState at hv ⊢
  cases hd : deviceSteps env (some f) u ⟨s, [], []⟩ with
  | ok a =>
    rw [hd] at hv
    have hv' : firstErr f a.events = some v := hv
    rw [hspec.1 a hd] at hv'
    cases hv'
  | error e =>
    obtain ⟨r, a⟩ := e
    rw [hd] at hv
    have hv' : firstErr f a.events = some v := hv
    show r = v
    rcases hspec.2 r a hd with hh | hh
    · rw [hv'] at hh
      injection hh with hh2
      exact hh2.symm
    · rw [hv'] at hh
      cases hh

/-- If the device applier's result is non-zero and the diff's `next`
enables neither side, the trace pinpoints that result. -/
theorem applyDevice_strict_firstErr (env : Env) (f : Observer) (u : EngineStateUpdate)
    (s : Sys) (hOut : u.next.IsOutputEnabled = false) (hIn : u.next.IsInputEnabled = false)
    (hr : (ApplyDeviceEngineState env (some f) u s).1 ≠ 0) :
    firstErr f (ApplyDeviceEngineState env (some f) u s).2.2 =
      some (ApplyDeviceEngineState env (some f) u s).1 := by
  have hspec := deviceSteps_specS env f u hOut hIn ⟨s, [], []⟩ rfl
  unfold ApplyDeviceEngineState at hr ⊢
  cases hd : deviceSteps env (some f) u ⟨s, [], []⟩ with
  | ok a =>
    rw [hd] at hr
    exact absurd rfl hr
  | error e =>
    obtain ⟨r, a⟩ := e
    show firstErr f a.events = some r
    exact hspec.2 r a hd

/-- Manual-applier analogue of `applyDevice_firstErr`, plus strictness:
the manual applier has no device-unavailable returns at all. -/
theorem applyManual_firstErr (env : Env) (f : Observer) (u : EngineStateUpdate)
    (s : Sys) :
    (∀ v, firstErr f (ApplyManualEngineState env (some f) u s).2.2 = some v →
      (ApplyManualEngineState env (some f) u s).1 = v) ∧
    ((ApplyManualEngineState env (some f) u s).1 ≠ 0 →
      firstErr f (ApplyManualEngineState env (some f) u s).2.2 =
        some (ApplyManualEngineState env (some f) u s).1) := by
  have hspec := manualSteps_specS env f u ⟨s, [], []⟩ rfl
  unfold ApplyManualEngineState
  cases hd : manualSteps env (some f) u ⟨s, [], []⟩ with
  | ok a =>
    refine ⟨fun v hv => ?_, fun hr => absurd rfl hr⟩
    rw [hspec.1 a hd] at hv
    cases hv
  | error e =>
    obtain ⟨r, a⟩ := e
    have hh := hspec.2 r a hd
    refine ⟨fun v hv => ?_, fun _ => hh⟩
    rw [hv] at hh
    injection hh with hh2
    exact hh2.symm

/-- The dispatch of `ModifyEngineState` returns the first failing
observer return of the combined trace (when one exists). -/
theorem dispatch_firstErr (env : Env) (f : Observer) (u : EngineStateUpdate)
    (s : Sys) (v : Int)
    (hv : firstErr f (dispatchEngineState env (some f) u s).2.2.2 = some v) :
    (if (dispatchEngineState env (some f) u s).1 ≠ 0
      then (dispatchEngineState env (some f) u s).1
      else (dispatchEngineState env (some f) u s).2.1) = v := by
  unfold dispatchEngineState at hv ⊢
  by_cases h1 : u.DidEnableManualRenderingMode = true
  · simp only [if_pos h1] at hv ⊢
    try dsimp only at hv ⊢
    rw [firstErr_append] at hv
    cases he1 : firstErr f
        (ApplyDeviceEngineState env (some f) ⟨u.prev, EngineState.defaultState⟩ s).2.2 with
    | none =>
      rw [he1] at hv
      try dsimp only at hv
      by_cases hz : (ApplyDeviceEngineState env (some f)
          ⟨u.prev, EngineState.defaultState⟩ s).1 = 0
      · rw [if_neg (by simpa using hz)]
        exact (applyManual_firstErr env f u _).1 v hv
      · exact absurd (applyDevice_strict_firstErr env f
          ⟨u.prev, EngineState.defaultState⟩ s defaultState_IsOutputEnabled
          defaultState_IsInputEnabled hz ▸ he1) (by simp)
    | some v1 =>
      rw [he1] at hv
      try dsimp only at hv
      injection hv with hv2
      subst hv2
      have hd1 := applyDevice_firstErr env f ⟨u.prev, EngineState.defaultState⟩ s v1 he1
      rw [if_pos (by rw [hd1]; exact firstErr_ne_zero f _ v1 he1)]
      exact hd1
  · rw [if_neg h1] at hv ⊢
    by_cases h2 : u.DidEnableDeviceRenderingMode = true
    · simp only [if_pos h2] at hv ⊢
      try dsimp only at hv ⊢
      rw [firstErr_append] at hv
      cases he1 : firstErr f
          (ApplyManualEngineState env (some f) ⟨u.prev, EngineState.defaultState⟩ s).2.2 with
      | none =>
        rw [he1] at hv
        try dsimp only at hv
        by_cases hz : (ApplyManualEngineState env (some f)
            ⟨u.prev, EngineState.defaultState⟩ s).1 = 0
        · rw [if_neg (by simpa using hz)]
          exact applyDevice_firstErr env f u _ v hv
        · exact absurd ((applyManual_firstErr env f
            ⟨u.prev, EngineState.defaultState⟩ s).2 hz ▸ he1) (by simp)
      | some v1 =>
        rw [he1] at hv
        try dsimp only at hv
        injection hv with hv2
        subst hv2
        have hd1 := (applyManual_firstErr env f
          ⟨u.prev, EngineState.defaultState⟩ s).1 v1 he1
        rw [if_pos (by rw [hd1]; exact firstErr_ne_zero f _ v1 he1)]
        exact hd1
    · rw [if_neg h2] at hv ⊢
      by_cases h3 : decide (u.next.render_mode = RenderMode.Device) = true
      · simp only [if_pos h3] at hv ⊢
        try dsimp only at hv ⊢
        have hd := applyDevice_firstErr env f u s v hv
        rw [if_pos (by rw [hd]; exact firstErr_ne_zero f _ v hv)]
        exact hd
      · simp only [if_neg h3] at hv ⊢
        try dsimp only at hv ⊢
        rw [if_neg (by simp)]
        exact (applyManual_firstErr env f u s).1 v hv

/-- The result and trace of `ModifyEngineState`: either no applier ran
(empty trace), or the trace and result are those of the dispatch. -/
theorem modify_result_trace (env : Env) (obs : Option Observer)
    (tf : EngineState → EngineState) (es : EngineState) (s : Sys) :
    (ModifyEngineState env obs tf es s).2.2.2 = [] ∨
    ((ModifyEngineState env obs tf es s).2.2.2 =
        (dispatchEngineState env obs ⟨es, tf es⟩ s).2.2.2 ∧
      (ModifyEngineState env obs tf es s).1 =
        (if (dispatchEngineState env obs ⟨es, tf es⟩ s).1 ≠ 0
          then (dispatchEngineState env obs ⟨es, tf es⟩ s).1
          else (dispatchEngineState env obs ⟨es, tf es⟩ s).2.1)) := by
  unfold ModifyEngineState
  dsimp only
  split
  · exact Or.inl rfl
  · split
    · exact Or.inl rfl
    · split
      · exact Or.inl rfl
      · refine Or.inr ⟨?_, ?_⟩
        · split <;> try split
          all_goals rfl
        · split <;> try split
          · rfl
          · rename_i h2
            exact h2.symm
          · rfl

/-- C2 (amended): for any transition run with an observer, if any fired
callback returned a non-zero value, then `ModifyEngineState` returns the
first such value unchanged, and the committed `engine_state_` equals the
state committed before the call.  (The original claim's buffer-flag
clause fails: see the counterexample.) -/
theorem c2_observer_error_propagation (env : Env) (f : Observer)
    (tf : EngineState → EngineState) (es : EngineState) (s : Sys) :
    (∀ v, firstErr f (ModifyEngineState env (some f) tf es s).2.2.2 = some v →
      (ModifyEngineState env (some f) tf es s).1 = v) ∧
    ((ModifyEngineState env (some f) tf es s).1 ≠ 0 →
      (ModifyEngineState env (some f) tf es s).2.1 = es) := by
  refine ⟨fun v hv => ?_, (modify_committed env (some f) tf es s).2⟩
  rcases modify_result_trace env (some f) tf es s with h | ⟨htr, hres⟩
  · rw [h] at hv
    cases hv
  · rw [htr] at hv
    rw [hres]
    exact dispatch_firstErr env f ⟨es, tf es⟩ s v hv

/-- Committed state for the C1 scenario: device rendering mode with
output enabled and running (all other fields defaulted). -/
def c1PrevState : EngineState :=
  { EngineState.defaultState with output_enabled := true, output_running := true }

/-- Collaborator state consistent with `c1PrevState`: buffer playing,
device engine present and running. -/
def c1Sys : Sys :=
  { sysAllOff with
    buffer_playing := true
    engine_device := true
    engine_device_running := true
    fine_buffer := true
    source_node := true
    config_observer := true }

/-- C1: the source resets `shutdown_state.prev` instead of
`startup_state.prev` (a dead store at audio_engine_device.mm:1343 and
symmetrically :1357), so on a Device→Manual switch the manual-mode
applier receives `prev = current state`, not `prev = default`.
Concretely, switching to manual rendering while output is enabled and
running never creates the manual engine and never fires
`OnEngineDidCreate` (first half), whereas running the manual applier
with `prev = default` — the rule the claim and spec state — creates the
manual engine and fires `OnEngineDidCreate`, `OnEngineWillEnable` and
`OnEngineWillStart` (second half). -/
theorem c1_mode_switch_startup_prev_not_default :
    ((ModifyEngineState envAllOk (some obsAllZero)
        (setManualRenderingModeTransform true) c1PrevState c1Sys).1 = 0 ∧
      (ModifyEngineState envAllOk (some obsAllZero)
        (setManualRenderingModeTransform true) c1PrevState c1Sys).2.1.render_mode
        = RenderMode.Manual ∧
      (ModifyEngineState envAllOk (some obsAllZero)
        (setManualRenderingModeTransform true) c1PrevState c1Sys).2.2.1.engine_manual
        = false ∧
      (ModifyEngineState envAllOk (some obsAllZero)
        (setManualRenderingModeTransform true) c1PrevState c1Sys).2.2.1.render_thread
        = false ∧
      ObsEvent.didCreate ∉
        (ModifyEngineState envAllOk (some obsAllZero)
          (setManualRenderingModeTransform true) c1PrevState c1Sys).2.2.2) ∧
    ((ApplyManualEngineState envAllOk (some obsAllZero)
        ⟨EngineState.defaultState, setManualRenderingModeTransform true c1PrevState⟩
        (ApplyDeviceEngineState envAllOk (some obsAllZero)
          ⟨c1PrevState, EngineState.defaultState⟩ c1Sys).2.1).2.1.engine_manual = true ∧
      ObsEvent.didCreate ∈
        (ApplyManualEngineState envAllOk (some obsAllZero)
          ⟨EngineState.defaultState, setManualRenderingModeTransform true c1PrevState⟩
          (ApplyDeviceEngineState envAllOk (some obsAllZero)
            ⟨c1PrevState, EngineState.defaultState⟩ c1Sys).2.1).2.2) := by
  decide

/-- Observer for the C2 counterexample: rejects `OnEngineWillEnable`
with −7 and accepts everything else. -/
def c2Obs : Observer := fun e =>
  match e with
  | ObsEvent.willEnable _ _ => -7
  | _ => 0

/-- Committed state for the C2 counterexample: output enabled, input
not following output (so input can be enabled while output is being
disabled). -/
def c2PrevState : EngineState :=
  { EngineState.defaultState with output_enabled := true, input_follow_mode := false }

/-- Collaborator state consistent with `c2PrevState`: buffer playing,
device engine present. -/
def c2Sys : Sys :=
  { sysAllOff with
    buffer_playing := true
    engine_device := true
    fine_buffer := true
    source_node := true }

/-- Transform for the C2 counterexample: disable output, enable input. -/
def c2Transform (st : EngineState) : EngineState :=
  { st with output_enabled := false, input_enabled := true }

/-- C2 counterexample: the observer rejects `OnEngineWillEnable` with
−7; `ModifyEngineState` propagates −7 and does not commit, but the
playout buffer was already stopped in an earlier step and is *not*
restored by the rollback, so the buffer's playing flag (false) differs
from the one implied by the still-committed previous state
(`IsOutputEnabled = true`) — refuting the claim's buffer-flag clause. -/
theorem c2_buffer_flags_not_restored :
    (ModifyEngineState envAllOk (some c2Obs) c2Transform c2PrevState c2Sys).1 = -7 ∧
    (ModifyEngineState envAllOk (some c2Obs) c2Transform c2PrevState c2Sys).2.1
      = c2PrevState ∧
    c2PrevState.IsOutputEnabled = true ∧
    (ModifyEngineState envAllOk (some c2Obs) c2Transform c2PrevState c2Sys).2.2.1.buffer_playing
      = false := by
  decide

/-- Witness for the amended C2 at the counterexample's concrete inputs:
the first failing observer return (−7 from `OnEngineWillEnable`) is
returned unchanged and the committed state is untouched. -/
theorem c2_observer_error_propagation_witness :
    (ModifyEngineState envAllOk (some c2Obs) c2Transform c2PrevState c2Sys).1 = -7 ∧
    (ModifyEngineState envAllOk (some c2Obs) c2Transform c2PrevState c2Sys).2.1
      = c2PrevState :=
  ⟨(c2_observer_error_propagation envAllOk c2Obs c2Transform c2PrevState c2Sys).1
      (-7) (by decide),
    (c2_observer_error_propagation envAllOk c2Obs c2Transform c2PrevState c2Sys).2
      (by decide)⟩

theorem runStartLoop_attempts_le (start_ok : Nat → Bool) :
    ∀ remaining idx sleeps,
      idx ≤ (runStartLoop start_ok idx sleeps remaining).attempts ∧
      (runStartLoop start_ok idx sleeps remaining).attempts ≤ idx + remaining ∧
      ((runStartLoop start_ok idx sleeps remaining).started = false →
        (runStartLoop start_ok idx sleeps remaining).attempts = idx + remaining) := by
  intro remaining
  induction remaining with
  | zero => intro idx sleeps; simp [runStartLoop]
  | succ k ih =>
    intro idx sleeps
    unfold runStartLoop
    by_cases h : start_ok idx = true
    · rw [if_pos h]
      dsimp only
      exact ⟨Nat.le_succ idx, by omega, fun hc => by simp at hc⟩
    · rw [if_neg h]
      obtain ⟨h1, h2, h3⟩ := ih (idx + 1) (if 0 < idx then sleeps + 1 else sleeps)
      exact ⟨by omega, by omega, fun hs => by rw [h3 hs]; omega⟩

theorem runStartLoop_sleeps (start_ok : Nat → Bool) :
    ∀ remaining idx sleeps,
      (runStartLoop start_ok idx sleeps remaining).sleeps =
        sleeps + ((runStartLoop start_ok idx sleeps remaining).attempts - max idx 1) := by
  intro remaining
  induction remaining with
  | zero => intro idx sleeps; simp [runStartLoop]
  | succ k ih =>
    intro idx sleeps
    unfold runStartLoop
    by_cases h : start_ok idx = true
    · rw [if_pos h]
      dsimp only
      by_cases hidx : 0 < idx
      · rw [if_pos hidx]
        omega
      · rw [if_neg hidx]
        omega
    · rw [if_neg h]
      rw [ih (idx + 1) (if 0 < idx then sleeps + 1 else sleeps)]
      have h1 := (runStartLoop_attempts_le start_ok k (idx + 1)
        (if 0 < idx then sleeps + 1 else sleeps)).1
      by_cases hidx : 0 < idx
      · rw [if_pos hidx] at *
        omega
      · rw [if_neg hidx] at *
        omega

/-- C8: the start-engine retry loop always terminates (it is a total
function of the per-attempt outcomes) making at most
`kStartEngineMaxRetries = 10` attempts, with a 100 ms sleep before every
attempt but the first (so `sleeps = attempts − 1`); when the final
attempt still fails it has made exactly 10 attempts and the applier's
start step emits a `DebugAudioEngine` dump. -/
theorem c8_start_engine_retries (start_ok : Nat → Bool) (env : Env) (s : Sys) :
    (StartEngineWithRetries start_ok).attempts ≤ kStartEngineMaxRetries ∧
    (StartEngineWithRetries start_ok).sleeps =
      (StartEngineWithRetries start_ok).attempts - 1 ∧
    ((StartEngineWithRetries start_ok).started = false →
      (StartEngineWithRetries start_ok).attempts = kStartEngineMaxRetries) ∧
    ((StartEngineWithRetries env.start_ok).started = false →
      (startEngineUpdate env s).debug_dumps = s.debug_dumps + 1) := by
  refine ⟨?_, ?_, ?_, ?_⟩
  · exact (runStartLoop_attempts_le start_ok kStartEngineMaxRetries 0 0).2.1
  · show (runStartLoop start_ok 0 0 kStartEngineMaxRetries).sleeps =
      (runStartLoop start_ok 0 0 kStartEngineMaxRetries).attempts - 1
    rw [runStartLoop_sleeps start_ok kStartEngineMaxRetries 0 0]
    omega
  · exact (runStartLoop_attempts_le start_ok kStartEngineMaxRetries 0 0).2.2
  · intro hf
    unfold startEngineUpdate
    rw [hf]
    simp

/-- Witness for C8 with every attempt failing: 10 attempts, 9 sleeps,
not started, and a dump is emitted. -/
theorem c8_start_engine_retries_witness :
    (StartEngineWithRetries (fun _ => false)).attempts = 10 ∧
    (StartEngineWithRetries (fun _ => false)).sleeps = 9 ∧
    (startEngineUpdate
      { envAllOk with start_ok := fun _ => false } sysAllOff).debug_dumps = 1 :=
  ⟨(c8_start_engine_retries (fun _ => false)
      { envAllOk with start_ok := fun _ => false } sysAllOff).2.2.1 (by decide),
    by
      have h2 := (c8_start_engine_retries (fun _ => false)
        { envAllOk with start_ok := fun _ => false } sysAllOff).2.1
      have h3 := (c8_start_engine_retries (fun _ => false)
        { envAllOk with start_ok := fun _ => false } sysAllOff).2.2.1 (by decide)
      rw [h2, h3]
      rfl,
    (c8_start_engine_retries (fun _ => false)
      { envAllOk with start_ok := fun _ => false } sysAllOff).2.2.2 (by decide)⟩

/-- The fixed manual-rendering sample rate (48 kHz,
`manual_render_rtc_format_`). -/
def manualRenderSampleRate : Nat := 48000

/-- `frames_per_buffer = static_cast<size_t>(sample_rate / 100)` from
`StartRenderLoop` (10 ms worth of frames). -/
def framesPerRenderChunk : Nat := manualRenderSampleRate / 100

/-- `chunk_ms = round(1000.0 * frames_per_buffer / sample_rate)` from
`StartRenderLoop`. -/
def renderChunkMs : Int :=
  round ((1000 : Rat) * (framesPerRenderChunk : Rat) / (manualRenderSampleRate : Rat))

/-- Observable state of the manual render loop: the absolute wakeup
deadline, the total frames handed to `DeliverRecordedData`, and the log
of sleep durations actually performed (0 when the deadline has passed). -/
structure RenderLoopState where
  next_wakeup_ms : Int
  delivered_frames : Nat
  sleeps : List Int
deriving DecidableEq, Repr

/-- One iteration of the `while (!render_thread_->IsQuitting())` body of
`StartRenderLoop`: pull playout data, call the manual-rendering block
(`render_ok` is its status), on success deliver `framesPerRenderChunk`
recorded frames, then advance `next_wakeup_ms += chunk_ms` and sleep
`next_wakeup_ms - now` when positive. -/
def renderLoopIter (render_ok : Bool) (now_ms : Int) (st : RenderLoopState) :
    RenderLoopState :=
  let delivered :=
    st.delivered_frames + (if render_ok then framesPerRenderChunk else 0)
  let next_wakeup := st.next_wakeup_ms + renderChunkMs
  let sleep_ms := next_wakeup - now_ms
  { next_wakeup_ms := next_wakeup
    delivered_frames := delivered
    sleeps := st.sleeps ++ [if 0 < sleep_ms then sleep_ms else 0] }

/-- `n` iterations of the render loop, started at time `start` with the
render block succeeding on iteration `i` iff `render_ok i`, and
`clock i` the monotonic time observed after iteration `i`'s render. -/
def runRenderLoop (render_ok : Nat → Bool) (clock : Nat → Int) (start : Int) :
    Nat → RenderLoopState
  | 0 => ⟨start, 0, []⟩
  | n + 1 =>
    renderLoopIter (render_ok n) (clock n) (runRenderLoop render_ok clock start n)

theorem runRenderLoop_next_wakeup (render_ok : Nat → Bool) (clock : Nat → Int)
    (start : Int) : ∀ n : Nat,
    (runRenderLoop render_ok clock start n).next_wakeup_ms =
      start + (n : Int) * renderChunkMs := by
  intro n
  induction n with
  | zero => simp [runRenderLoop]
  | succ k ih =>
    show (renderLoopIter (render_ok k) (clock k)
      (runRenderLoop render_ok clock start k)).next_wakeup_ms = _
    unfold renderLoopIter
    dsimp only
    rw [ih]
    push_cast
    ring

/-- C9: at the fixed 48 kHz format, `frames_per_chunk = sample_rate/100 =
480` and `chunk_ms = round(1000*frames/sample_rate) = 10`; after `n`
iterations the loop has delivered exactly `frames_per_chunk` recorded
frames per successful iteration; and the wakeup deadline is the absolute
`start + n * chunk_ms`, each sleep being computed as that deadline minus
the current clock reading (clamped at 0), not a fixed increment. -/
theorem c9_render_loop_pacing (render_ok : Nat → Bool) (clock : Nat → Int)
    (start : Int) (n : Nat) :
    framesPerRenderChunk = 480 ∧
    renderChunkMs = 10 ∧
    (runRenderLoop render_ok clock start n).next_wakeup_ms =
      start + (n : Int) * renderChunkMs ∧
    (runRenderLoop render_ok clock start n).delivered_frames =
      framesPerRenderChunk *
        ((List.range n).filter (fun i => render_ok i = true)).length ∧
    (runRenderLoop render_ok clock start n).sleeps =
      (List.range n).map (fun i : Nat =>
        if 0 < start + ((i : Int) + 1) * renderChunkMs - clock i
        then start + ((i : Int) + 1) * renderChunkMs - clock i else 0) := by
  refine ⟨rfl, by rw [renderChunkMs]; norm_num [framesPerRenderChunk, manualRenderSampleRate],
    runRenderLoop_next_wakeup render_ok clock start n, ?_, ?_⟩
  · induction n with
    | zero => simp [runRenderLoop]
    | succ k ih =>
      show (renderLoopIter (render_ok k) (clock k)
        (runRenderLoop render_ok clock start k)).delivered_frames = _
      unfold renderLoopIter
      dsimp only
      rw [ih, List.range_succ, List.filter_append]
      by_cases h : render_ok k = true
      · simp [h, Nat.mul_add]
      · simp [h]
  · induction n with
    | zero => simp [runRenderLoop]
    | succ k ih =>
      show (renderLoopIter (render_ok k) (clock k)
        (runRenderLoop render_ok clock start k)).sleeps = _
      unfold renderLoopIter
      dsimp only
      rw [ih, List.range_succ, List.map_append]
      rw [runRenderLoop_next_wakeup render_ok clock start k]
      simp only [List.map_cons, List.map_nil]
      have harith : start + (k : Int) * renderChunkMs + renderChunkMs - clock k =
          start + ((k : Int) + 1) * renderChunkMs - clock k := by ring
      rw [harith]

/-- `kDefaultDeviceUpdateDebounceMs` (500 ms debounce delay). -/
def kDefaultDeviceUpdateDebounceMs : Nat := 500

/-- A debounced task posted by `HandleDeviceListenerEvent`: its absolute
fire time, the safety-flag id guarding it, and which side's counter it
increments (`true` = default output, `false` = default input). -/
structure DebounceTask where
  fire_time : Nat
  flag : Nat
  is_output : Bool
deriving DecidableEq, Repr

/-- State of the debouncing machinery: queued delayed tasks, the id of
the currently alive `default_device_update_safety_` flag, a fresh-flag
counter, and the committed counter increments per side (the
`ModifyEngineState` calls that bump
`default_output_device_update_count` / `default_input_device_update_count`). -/
structure DebounceState where
  tasks : List DebounceTask
  alive_flag : Nat
  next_flag : Nat
  output_count : Nat
  input_count : Nat
deriving DecidableEq, Repr

/-- Running one queued task: the `SafeTask` wrapper makes it a no-op
unless its safety flag is still the alive one; otherwise it increments
its side's counter. -/
def fireTask (s : DebounceState) (t : DebounceTask) : DebounceState :=
  if t.flag = s.alive_flag then
    if t.is_output then { s with output_count := s.output_count + 1 }
    else { s with input_count := s.input_count + 1 }
  else s

/-- Run every queued task whose fire time has arrived. -/
def fireDueTasks (now : Nat) (s : DebounceState) : DebounceState :=
  let due := s.tasks.filter (fun t => decide (t.fire_time ≤ now))
  let rest := s.tasks.filter (fun t => !decide (t.fire_time ≤ now))
  due.foldl fireTask { s with tasks := rest }

/-- The default-device branch of `HandleDeviceListenerEvent`: set the
current safety flag not-alive, replace it with a freshly created one,
and post a new delayed task `kDefaultDeviceUpdateDebounceMs` later
guarded by the fresh flag. -/
def handleDefaultDeviceEvent (now : Nat) (is_output : Bool) (s : DebounceState) :
    DebounceState where
  tasks := s.tasks ++ [⟨now + kDefaultDeviceUpdateDebounceMs, s.next_flag, is_output⟩]
  alive_flag := s.next_flag
  next_flag := s.next_flag + 1
  output_count := s.output_count
  input_count := s.input_count

/-- Process a timeline of default-device events (time, side) in
ascending time order, firing due tasks before each event; after the last
event every remaining queued task eventually fires. -/
def runDebounce : List (Nat × Bool) → DebounceState → DebounceState
  | [], s => s.tasks.foldl fireTask { s with tasks := [] }
  | (t, side) :: rest, s =>
    runDebounce rest (handleDefaultDeviceEvent t side (fireDueTasks t s))

/-- The debouncer's initial state: no queued task, flag 0 alive. -/
def initDebounceState : DebounceState := ⟨[], 0, 1, 0, 0⟩

/-- Times starting from `tl` with each inter-arrival gap under the
debounce window. -/
def ChainFrom : Nat → List Nat → Prop
  | _, [] => True
  | tl, t :: rest =>
    (tl ≤ t ∧ t < tl + kDefaultDeviceUpdateDebounceMs) ∧ ChainFrom t rest

/-- Invariant after handling an event at time `tl` on side `side`:
exactly one queued task carries the alive flag — the one scheduled at
`tl + 500` by the latest event — and all flags are below the fresh-flag
counter. -/
def DebInv (s : DebounceState) (tl : Nat) (side : Bool) : Prop :=
  s.alive_flag < s.next_flag ∧
  (∀ t ∈ s.tasks, t.flag < s.next_flag) ∧
  s.tasks.filter (fun t => decide (t.flag = s.alive_flag)) =
    [⟨tl + kDefaultDeviceUpdateDebounceMs, s.alive_flag, side⟩]

theorem filter_and_comm (l : List DebounceTask) (p q : DebounceTask → Bool) :
    l.filter (fun t => p t && q t) = l.filter (fun t => q t && p t) := by
  apply List.filter_congr
  intro t _
  exact Bool.and_comm _ _

theorem foldl_fireTask_spec (ts : List DebounceTask) (s : DebounceState) :
    (ts.foldl fireTask s).alive_flag = s.alive_flag ∧
    (ts.foldl fireTask s).next_flag = s.next_flag ∧
    (ts.foldl fireTask s).tasks = s.tasks ∧
    (ts.foldl fireTask s).output_count =
      s.output_count +
        (ts.filter (fun t => decide (t.flag = s.alive_flag) && t.is_output)).length ∧
    (ts.foldl fireTask s).input_count =
      s.input_count +
        (ts.filter (fun t => decide (t.flag = s.alive_flag) && !t.is_output)).length := by
  induction ts generalizing s with
  | nil => simp
  | cons t ts ih =>
    obtain ⟨ha, hn, ht, ho, hi⟩ := ih (fireTask s t)
    have hfa : (fireTask s t).alive_flag = s.alive_flag := by
      unfold fireTask
      split
      · split <;> rfl
      · rfl
    simp only [hfa] at ha ho hi
    have hfn : (fireTask s t).next_flag = s.next_flag := by
      unfold fireTask
      split
      · split <;> rfl
      · rfl
    have hft : (fireTask s t).tasks = s.tasks := by
      unfold fireTask
      split
      · split <;> rfl
      · rfl
    simp only [List.foldl_cons]
    refine ⟨ha, by rw [hn, hfn], by rw [ht, hft], ?_, ?_⟩
    · rw [ho]
      by_cases hf : t.flag = s.alive_flag
      · by_cases hb : t.is_output = true
        · simp [fireTask, hf, hb, List.filter_cons]
          omega
        · simp only [Bool.not_eq_true] at hb
          simp [fireTask, hf, hb, List.filter_cons]
      · simp [fireTask, hf, List.filter_cons]
    · rw [hi]
      by_cases hf : t.flag = s.alive_flag
      · by_cases hb : t.is_output = true
        · simp [fireTask, hf, hb, List.filter_cons]
        · simp only [Bool.not_eq_true] at hb
          simp [fireTask, hf, hb, List.filter_cons]
          omega
      · simp [fireTask, hf, List.filter_cons]

theorem fireDueTasks_spec (now : Nat) (s : DebounceState) (tl : Nat) (side : Bool)
    (hinv : DebInv s tl side) (hlt : now < tl + kDefaultDeviceUpdateDebounceMs) :
    (fireDueTasks now s).alive_flag = s.alive_flag ∧
    (fireDueTasks now s).next_flag = s.next_flag ∧
    (fireDueTasks now s).output_count = s.output_count ∧
    (fireDueTasks now s).input_count = s.input_count ∧
    DebInv (fireDueTasks now s) tl side := by
  obtain ⟨hal, hfl, hfil⟩ := hinv
  unfold fireDueTasks
  dsimp only
  obtain ⟨ga, gn, gt, go, gi⟩ := foldl_fireTask_spec
    (s.tasks.filter (fun t => decide (t.fire_time ≤ now)))
    { s with tasks := s.tasks.filter (fun t => !decide (t.fire_time ≤ now)) }
  have hdue0 : (s.tasks.filter (fun t => decide (t.fire_time ≤ now))).filter
      (fun t => decide (t.flag = s.alive_flag)) = [] := by
    rw [List.filter_eq_nil_iff]
    intro t htmem
    rw [List.mem_filter] at htmem
    intro hflag
    have : t ∈ s.tasks.filter (fun t => decide (t.flag = s.alive_flag)) :=
      List.mem_filter.mpr ⟨htmem.1, hflag⟩
    rw [hfil] at this
    rw [List.mem_singleton] at this
    subst this
    simp only [decide_eq_true_eq] at htmem
    omega
  have hdue_and : ∀ (q : DebounceTask → Bool),
      (s.tasks.filter (fun t => decide (t.fire_time ≤ now))).filter
        (fun t => decide (t.flag = s.alive_flag) && q t) = [] := by
    intro q
    rw [List.filter_eq_nil_iff]
    intro t htmem hq
    simp only [Bool.and_eq_true] at hq
    have : t ∈ (s.tasks.filter (fun t => decide (t.fire_time ≤ now))).filter
        (fun t => decide (t.flag = s.alive_flag)) :=
      List.mem_filter.mpr ⟨htmem, hq.1⟩
    rw [hdue0] at this
    cases this
  refine ⟨ga, gn, by rw [go, hdue_and]; rfl, by rw [gi, hdue_and]; rfl, ?_, ?_, ?_⟩
  · rw [ga, gn]
    exact hal
  · intro t htmem
    rw [gt] at htmem
    dsimp only at htmem
    rw [List.mem_filter] at htmem
    rw [gn]
    exact hfl t htmem.1
  · rw [gt, ga]
    dsimp only
    rw [List.filter_comm, hfil]
    have : ¬(tl + kDefaultDeviceUpdateDebounceMs ≤ now) := by omega
    simp [List.filter, this]

theorem handleEvent_inv (now : Nat) (side : Bool) (s : DebounceState)
    (hflags : ∀ t ∈ s.tasks, t.flag < s.next_flag) :
    DebInv (handleDefaultDeviceEvent now side s) now side ∧
    (handleDefaultDeviceEvent now side s).output_count = s.output_count ∧
    (handleDefaultDeviceEvent now side s).input_count = s.input_count := by
  refine ⟨⟨Nat.lt_succ_self _, ?_, ?_⟩, rfl, rfl⟩
  · intro t htmem
    unfold handleDefaultDeviceEvent at htmem
    dsimp only at htmem
    rw [List.mem_append] at htmem
    rcases htmem with h | h
    · exact Nat.lt_succ_of_lt (hflags t h)
    · rw [List.mem_singleton] at h
      subst h
      exact Nat.lt_succ_self _
  · unfold handleDefaultDeviceEvent
    dsimp only
    rw [List.filter_append]
    have h1 : s.tasks.filter (fun t => decide (t.flag = s.next_flag)) = [] := by
      rw [List.filter_eq_nil_iff]
      intro t htmem hflag
      simp only [decide_eq_true_eq] at hflag
      exact absurd hflag (Nat.ne_of_lt (hflags t htmem))
    rw [h1]
    simp [List.filter]

theorem runDebounce_burst (side : Bool) :
    ∀ (events : List (Nat × Bool)) (s : DebounceState) (tl : Nat),
      DebInv s tl side →
      ChainFrom tl (events.map Prod.fst) →
      (∀ e ∈ events, e.2 = side) →
      (runDebounce events s).output_count =
        s.output_count + (if side then 1 else 0) ∧
      (runDebounce events s).input_count =
        s.input_count + (if side then 0 else 1) := by
  intro events
  induction events with
  | nil =>
    intro s tl hinv _ _
    obtain ⟨hal, hfl, hfil⟩ := hinv
    unfold runDebounce
    obtain ⟨ga, gn, gt, go, gi⟩ := foldl_fireTask_spec s.tasks { s with tasks := [] }
    have hout : s.tasks.filter
        (fun t => decide (t.flag = s.alive_flag) && t.is_output) =
        [⟨tl + kDefaultDeviceUpdateDebounceMs, s.alive_flag, side⟩].filter
          (fun t => t.is_output) := by
      rw [filter_and_comm, ← List.filter_filter, hfil]
    have hin : s.tasks.filter
        (fun t => decide (t.flag = s.alive_flag) && !t.is_output) =
        [⟨tl + kDefaultDeviceUpdateDebounceMs, s.alive_flag, side⟩].filter
          (fun t => !t.is_output) := by
      rw [filter_and_comm, ← List.filter_filter, hfil]
    constructor
    · rw [go]
      dsimp only
      rw [hout]
      cases side <;> simp [List.filter]
    · rw [gi]
      dsimp only
      rw [hin]
      cases side <;> simp [List.filter]
  | cons e rest ih =>
    intro s tl hinv hchain hsides
    obtain ⟨t0, sd⟩ := e
    have hsd : sd = side := hsides (t0, sd) (List.mem_cons_self _ _)
    subst hsd
    obtain ⟨⟨hle, hlt⟩, hchain'⟩ := hchain
    obtain ⟨fa, fn, fo, fi, finv⟩ := fireDueTasks_spec t0 s tl sd hinv hlt
    have hflags2 : ∀ t ∈ (fireDueTasks t0 s).tasks,
        t.flag < (fireDueTasks t0 s).next_flag := finv.2.1
    obtain ⟨hinv2, ho2, hi2⟩ := handleEvent_inv t0 sd (fireDueTasks t0 s) hflags2
    show (runDebounce rest (handleDefaultDeviceEvent t0 sd (fireDueTasks t0 s))).output_count
        = s.output_count + (if sd = true then 1 else 0) ∧
      (runDebounce rest (handleDefaultDeviceEvent t0 sd (fireDueTasks t0 s))).input_count
        = s.input_count + (if sd = true then 0 else 1)
    obtain ⟨r1, r2⟩ := ih (handleDefaultDeviceEvent t0 sd (fireDueTasks t0 s)) t0 hinv2
      hchain' (fun e he => hsides e (List.mem_cons_of_mem _ he))
    rw [r1, r2, ho2, hi2, fo, fi]
    exact ⟨rfl, rfl⟩

/-- C7: handling a default-device notification cancels any pending
debounced update (the alive safety flag is replaced, so queued tasks
no-op) and schedules a fresh update 500 ms later; consequently a burst
of same-side events whose inter-arrival gaps are all under 500 ms — for
example three events within 500 ms — commits exactly one increment of
that side's counter and none of the other side's. -/
theorem c7_debounce_single_increment (t0 : Nat) (side : Bool)
    (events : List (Nat × Bool))
    (hchain : ChainFrom t0 (events.map Prod.fst))
    (hsides : ∀ e ∈ events, e.2 = side) :
    (∀ (now : Nat) (sd : Bool) (s : DebounceState), s.alive_flag < s.next_flag →
      (handleDefaultDeviceEvent now sd s).alive_flag ≠ s.alive_flag ∧
      (handleDefaultDeviceEvent now sd s).tasks =
        s.tasks ++ [⟨now + kDefaultDeviceUpdateDebounceMs, s.next_flag, sd⟩]) ∧
    (runDebounce ((t0, side) :: events) initDebounceState).output_count =
      (if side then 1 else 0) ∧
    (runDebounce ((t0, side) :: events) initDebounceState).input_count =
      (if side then 0 else 1) := by
  refine ⟨fun now sd s hs => ⟨Nat.ne_of_gt hs, rfl⟩, ?_⟩
  have hfire0 : fireDueTasks t0 initDebounceState = initDebounceState := rfl
  have hinv1 : DebInv (handleDefaultDeviceEvent t0 side initDebounceState) t0 side :=
    (handleEvent_inv t0 side initDebounceState
      (fun t ht => absurd ht (List.not_mem_nil t))).1
  show ((runDebounce ((t0, side) :: events) initDebounceState).output_count = _ ∧ _)
  unfold runDebounce
  rw [hfire0]
  obtain ⟨r1, r2⟩ := runDebounce_burst side events
    (handleDefaultDeviceEvent t0 side initDebounceState) t0 hinv1 hchain hsides
  rw [r1, r2]
  constructor <;> simp [handleDefaultDeviceEvent, initDebounceState]

/-- Witness for C7: three default-output events at t = 0, 200 and 400 ms
(all gaps below 500 ms) commit exactly one output-counter increment and
no input-counter increment. -/
theorem c7_debounce_single_increment_witness :
    (runDebounce [(0, true), (200, true), (400, true)]
      initDebounceState).output_count = 1 ∧
    (runDebounce [(0, true), (200, true), (400, true)]
      initDebounceState).input_count = 0 :=
  ⟨(c7_debounce_single_increment 0 true [(200, true), (400, true)]
      (by constructor <;> simp [ChainFrom, kDefaultDeviceUpdateDebounceMs])
      (by intro e he; fin_cases he <;> rfl)).2.1,
    (c7_debounce_single_increment 0 true [(200, true), (400, true)]
      (by constructor <;> simp [ChainFrom, kDefaultDeviceUpdateDebounceMs])
      (by intro e he; fin_cases he <;> rfl)).2.2⟩

end AudioEngine
